import Mathlib

/-!
Verification development for the `Assistant` orchestrator
(`phi/assistant/assistant.py`): a shallow embedding of its data model and
operations, together with theorems about storage reconciliation, the
task-chaining run pipeline, structured-output parsing, raw chat, and the
naming helpers.

External collaborators (storage adapter, language-model client, tasks) and
repository modules that are not part of the orchestrator file
(`merge_dictionaries`, `AssistantMemory`, `AssistantRun`, `Message`, `Task`)
are modelled from the specification's collaborator contracts; those
definitions carry a `Modelled from the spec:` doc comment.  Python builtins
(`str.replace`, `str.split`, `str.strip`, `json.loads`, `json.dumps`) are
embedded as explicit executable functions on the fragment the orchestrator
exercises.
-/

set_option autoImplicit false

namespace Phi

/-- Scalar values stored in the metadata dictionaries
(`assistant_data`, `run_data`, `user_data`, `task_data`). -/
inductive MVal where
  | mint : Int → MVal
  | mstr : String → MVal
deriving DecidableEq

/-- A Python `Dict[str, Any]` restricted to scalar values, represented as an
association list in insertion order (keys are unique in a Python dict; lookup
returns the first occurrence). -/
abbrev MDict := List (String × MVal)

/-- First-occurrence lookup in an association list, the embedding of
Python `d[k]` / `d.get(k)`. -/
def mlookup : MDict → String → Option MVal
  | [], _ => none
  | (k, v) :: rest, key => if k = key then some v else mlookup rest key

/-- Modelled from the spec: `phi.utils.merge_dict.merge_dictionaries` is not
under `src/`; per the spec's merge semantics the persisted dictionary is the
base and the caller-set (`update`) values take precedence on key conflicts,
matching Python `base.update(update)` performed in place: base keys keep
their position (with updated values), keys new to `update` are appended in
order. -/
def merge_dictionaries (base update : MDict) : MDict :=
  base.map (fun p => (p.1, (mlookup update p.1).getD p.2)) ++
    update.filter (fun p => (mlookup base p.1).isNone)

/-- Modelled from the spec: a chat message (role + content), the shape of
`phi.llm.message.Message` that the orchestrator reads and writes. -/
structure Message where
  role : String
  content : String
deriving DecidableEq

/-- Modelled from the spec: `AssistantMemory` holds the user-visible chat
history and the raw message log sent to / received from the model. -/
structure AssistantMemory where
  chat_history : List Message := []
  llm_messages : List Message := []
deriving DecidableEq

/-- Modelled from the spec: `AssistantMemory.add_chat_message` appends one
message to the visible chat history. -/
def AssistantMemory.add_chat_message (m : AssistantMemory) (msg : Message) :
    AssistantMemory :=
  { m with chat_history := m.chat_history ++ [msg] }

/-- Modelled from the spec: `AssistantMemory.add_llm_messages` appends the
forwarded messages to the raw message log. -/
def AssistantMemory.add_llm_messages (m : AssistantMemory) (msgs : List Message) :
    AssistantMemory :=
  { m with llm_messages := m.llm_messages ++ msgs }

/-- A Python value as handed around by the orchestrator for task
messages and raw task responses (`Union[List, Dict, str]` plus scalars). -/
inductive PyVal where
  | pstr : String → PyVal
  | pint : Int → PyVal
  | pbool : Bool → PyVal
  | pdict : MDict → PyVal
  | plist : List MVal → PyVal
deriving DecidableEq

/-- Python truthiness for the embedded values. -/
def truthyPy : PyVal → Bool
  | .pstr s => s ≠ ""
  | .pint n => n ≠ 0
  | .pbool b => b
  | .pdict d => d ≠ []
  | .plist l => l ≠ []

/-- A pydantic `BaseModel` instance as seen by the orchestrator: the
orchestrator only ever serializes it with
`model_dump_json(exclude_none=True, indent=2)`, so the instance is
represented by that canonical JSON text (pydantic itself is an external
library). -/
structure PModel where
  dump : String
deriving DecidableEq

/-- The orchestrator's call `m.model_dump_json(exclude_none=True, indent=2)`. -/
def model_dump_json (m : PModel) : String := m.dump

/-- A task's produced output / returned response: a string, a pydantic
model instance, or any other Python value. -/
inductive TaskValue where
  | tstr : String → TaskValue
  | tmodel : PModel → TaskValue
  | traw : PyVal → TaskValue
deriving DecidableEq

/-- Python truthiness of a task response (`if current_task_response:`);
model instances are always truthy. -/
def truthyTaskValue : TaskValue → Bool
  | .tstr s => s ≠ ""
  | .tmodel _ => true
  | .traw v => truthyPy v

/-! ### Python string builtins, embedded executably -/

/-- Python `str.split()` helper: accumulate the current word (reversed)
while scanning the characters. -/
def pySplitAux : List Char → List Char → List String
  | [], acc => if acc = [] then [] else [String.mk acc.reverse]
  | c :: cs, acc =>
    if c.isWhitespace then
      if acc = [] then pySplitAux cs []
      else String.mk acc.reverse :: pySplitAux cs []
    else pySplitAux cs (c :: acc)

/-- Python `s.split()` with no argument: split on whitespace runs,
dropping empty fields. -/
def pySplit (s : String) : List String := pySplitAux s.toList []

/-- Python `str.strip()`: drop leading and trailing whitespace. -/
def pyStrip (s : String) : String :=
  String.mk (((s.toList.dropWhile Char.isWhitespace).reverse.dropWhile
    Char.isWhitespace).reverse)

/-- Python `str.startswith(prefix)`. -/
def pyStartsWith (s pre : String) : Bool := pre.toList.isPrefixOf s.toList

/-- Python `str.replace(pat, rep)` worker: replace every non-overlapping
occurrence, scanning left to right; fuel bounds the number of scan steps
(each step consumes at least one character when the pattern is nonempty). -/
def pyReplaceAux (pat rep : List Char) : Nat → List Char → List Char
  | 0, cs => cs
  | fuel + 1, cs =>
    if pat ≠ [] ∧ cs.take pat.length = pat then
      rep ++ pyReplaceAux pat rep fuel (cs.drop pat.length)
    else
      match cs with
      | [] => []
      | c :: rest => c :: pyReplaceAux pat rep fuel rest

/-- Python `s.replace(pat, rep)` (the orchestrator never calls it with an
empty pattern, which is returned unchanged here). -/
def pyReplace (s pat rep : String) : String :=
  if pat = "" then s
  else String.mk (pyReplaceAux pat.toList rep.toList s.toList.length s.toList)

/-! ### JSON values and a mini parser (embedding of `json.loads` /
pydantic JSON validation on the fragment the orchestrator exercises) -/

/-- JSON values: integers, strings, and flat objects (the orchestrator's
structured outputs in this development are flat). -/
inductive Jv where
  | jint : Int → Jv
  | jstr : String → Jv
  | jobj : List (String × Jv) → Jv

/-- Python truthiness of a parsed JSON value (`0`, `""` and `{}` are falsy). -/
def jvTruthy : Jv → Bool
  | .jint n => n ≠ 0
  | .jstr s => s ≠ ""
  | .jobj l => !l.isEmpty

/-- First-occurrence lookup among the fields of a parsed JSON object. -/
def jlookup : List (String × Jv) → String → Option Jv
  | [], _ => none
  | (k, v) :: rest, key => if k = key then some v else jlookup rest key

/-- Skip JSON whitespace. -/
def skipWs : List Char → List Char
  | [] => []
  | c :: cs => if c = ' ' ∨ c = '\n' ∨ c = '\t' ∨ c = '\r' then skipWs cs else c :: cs

/-- Fold decimal digit characters into a natural number. -/
def digitsToNat (ds : List Char) : Nat :=
  ds.foldl (fun acc c => acc * 10 + (c.toNat - 48)) 0

/-- Parse a nonempty run of decimal digits. -/
def parseNatLit (cs : List Char) : Option (Nat × List Char) :=
  let ds := cs.takeWhile Char.isDigit
  if ds = [] then none else some (digitsToNat ds, cs.drop ds.length)

/-- Parse a JSON integer literal (optional leading minus sign). -/
def parseIntLit : List Char → Option (Int × List Char)
  | '-' :: rest => (parseNatLit rest).map (fun p => (-(p.1 : Int), p.2))
  | cs => (parseNatLit cs).map (fun p => ((p.1 : Int), p.2))

/-- Parse a JSON string literal without escape sequences. -/
def parseStringLit : List Char → Option (String × List Char)
  | '"' :: rest =>
    let body := rest.takeWhile (fun c => c ≠ '"')
    match rest.drop body.length with
    | '"' :: r2 => some (String.mk body, r2)
    | _ => none
  | _ => none

/-- Parse a scalar JSON value (integer or string). -/
def parseScalar (cs : List Char) : Option (Jv × List Char) :=
  match parseStringLit cs with
  | some (s, rest) => some (.jstr s, rest)
  | none => (parseIntLit cs).map (fun p => (.jint p.1, p.2))

/-- Parse the members of a flat JSON object after the opening brace,
up to and including the closing brace; fuel bounds the member count. -/
def parseMembers : Nat → List Char → Option (List (String × Jv) × List Char)
  | 0, _ => none
  | fuel + 1, cs =>
    match parseStringLit (skipWs cs) with
    | none => none
    | some (key, cs1) =>
      match skipWs cs1 with
      | ':' :: cs2 =>
        match parseScalar (skipWs cs2) with
        | none => none
        | some (v, cs3) =>
          match skipWs cs3 with
          | ',' :: cs4 =>
            (parseMembers fuel cs4).map (fun p => ((key, v) :: p.1, p.2))
          | '}' :: cs4 => some ([(key, v)], cs4)
          | _ => none
      | _ => none

/-- Parse one JSON value: a flat object or a scalar. -/
def parseTopVal (cs : List Char) : Option (Jv × List Char) :=
  match skipWs cs with
  | '{' :: rest =>
    match skipWs rest with
    | '}' :: r2 => some (.jobj [], r2)
    | r2 => (parseMembers (r2.length + 1) r2).map (fun p => (.jobj p.1, p.2))
  | cs1 => parseScalar cs1

/-- Embedding of Python `json.loads` on the fragment the orchestrator
exercises: flat objects, integers, and plain strings; trailing garbage or
malformed input yields `none` (the raised `JSONDecodeError`). -/
def json_loads (s : String) : Option Jv :=
  match parseTopVal s.toList with
  | some (v, rest) => if skipWs rest = [] then some v else none
  | none => none

/-- Serialize a metadata value as JSON text. -/
def mvalDump : MVal → String
  | .mint n => toString n
  | .mstr s => "\x22" ++ s ++ "\x22"

/-- Embedding of Python `json.dumps` on the embedded Python values
(used by `_run` to normalize a non-string, non-model task response). -/
def json_dumps : PyVal → String
  | .pstr s => "\x22" ++ s ++ "\x22"
  | .pint n => toString n
  | .pbool b => if b then "true" else "false"
  | .pdict d =>
    "\x7b" ++ String.intercalate ", "
      (d.map (fun p => "\x22" ++ p.1 ++ "\x22: " ++ mvalDump p.2)) ++ "\x7d"
  | .plist l =>
    "[" ++ String.intercalate ", " (l.map mvalDump) ++ "]"

/-! ### Collaborators: language model, tasks, storage -/

/-- Modelled from the spec: the language-model client contract (§6).
`response` answers a message list with text (used by `generate_name`);
`generate` / `generate_stream` answer a raw message list (used by
`_chat_raw`); `respond` / `respondChunks` are the behavior the default
LLM task exhibits for an input message in batch / streaming mode; the
client exposes `metrics` readable after a call and supports `model_copy`
(value copy, embedded as the identity on this immutable value). -/
structure LLM where
  response : List Message → String
  generate : List Message → PyVal
  generate_stream : List Message → List PyVal
  respond : Option PyVal → Option TaskValue
  respondChunks : Option PyVal → List String
  metrics : MDict := []

/-- The serialized form of the LLM stored in a run record
(`llm.to_dict()`): the orchestrator only ever reads its `metrics` entry
back out of it. -/
structure LLMData where
  metrics : Option MDict := none
deriving DecidableEq

/-- The call `llm.to_dict()` as consumed by `to_database_row`. -/
def LLM.to_dict (l : LLM) : LLMData := { metrics := some l.metrics }

/-- Modelled from the spec: the `Task` collaborator contract (§6).
`runBatch`/`runChunks` give the value returned by `task.run(message,
stream)` in batch / streaming mode; `outputAfter streamed message` is the
task's `output` attribute after it has run on `message` in the given mode;
`show_output` and `streamable` are the visibility and capability flags.
The identity/memory fields injected by the orchestrator are recorded but
do not alter the behavior functions (the behavior already describes the
fully configured task). -/
structure Task where
  show_output : Bool := true
  streamable : Bool := true
  parse_output : Bool := true
  run_id : Option String := none
  assistant_name : Option String := none
  llm : Option LLM := none
  runBatch : Option PyVal → Option TaskValue
  runChunks : Option PyVal → List String
  outputAfter : Bool → Option PyVal → Option TaskValue

/-- Modelled from the spec: the persisted `AssistantRun` record —
identifiers, owning user id, serialized LLM state, serialized memory, and
the four metadata dictionaries. -/
structure AssistantRun where
  name : Option String := none
  run_id : Option String := none
  run_name : Option String := none
  user_id : Option String := none
  llm : Option LLMData := none
  memory : Option AssistantMemory := none
  assistant_data : Option MDict := none
  run_data : Option MDict := none
  user_data : Option MDict := none
  task_data : Option MDict := none
deriving DecidableEq

/-- Modelled from the spec: the storage adapter contract (§6):
`read(runId)` fetches the record for a run id if present, `upsert(record)`
persists a record and returns it (or signals failure with `none`). -/
structure AssistantStorage where
  read : String → Option AssistantRun
  upsert : AssistantRun → Option AssistantRun

/-- Observable side effects of an operation: storage accesses and
language-model contacts, in order of occurrence. -/
inductive Op where
  | opRead : String → Op
  | opUpsert : AssistantRun → Op
  | opLLMGen : Op
  | opLLMStream : Op

/-- The configured output schema (`output_model`): either a primitive
container marker (`str` / `dict` / `list`, handled with generic JSON
parsing) or an object schema given by its pydantic
`model_validate_json` validation function. -/
inductive OutputModel where
  | primitive : OutputModel
  | schema : (String → Option Jv) → OutputModel

/-- The assistant's stored `output`: the aggregated run text, a generic
JSON value from `json.loads`, or a validated model instance.  The split
between the latter two records Python truthiness: a model instance is
always truthy, a generic JSON value is not. -/
inductive OutVal where
  | otext : String → OutVal
  | ojson : Jv → OutVal
  | omodel : Jv → OutVal

/-- Python truthiness of the stored output (`self.output or json_resp`). -/
def truthyOut : OutVal → Bool
  | .otext s => s ≠ ""
  | .ojson j => jvTruthy j
  | .omodel _ => true

/-- The `Assistant` orchestrator state: the fields of the pydantic model
that the orchestration pipeline reads or writes.  Prompt-construction
configuration that is merely forwarded to the default LLM task is
summarized by the task behavior carried inside `llm`. -/
structure Assistant where
  llm : Option LLM := none
  introduction : Option String := none
  name : Option String := none
  assistant_data : Option MDict := none
  run_id : Option String := none
  run_name : Option String := none
  run_data : Option MDict := none
  user_id : Option String := none
  user_data : Option MDict := none
  memory : AssistantMemory := {}
  storage : Option AssistantStorage := none
  db_row : Option AssistantRun := none
  output_model : Option OutputModel := none
  parse_output : Bool := true
  output : Option OutVal := none
  tasks : Option (List Task) := none
  task_data : Option MDict := none
  markdown : Bool := false

/-- The `run_id` field validator (`set_run_id`): keep a caller-supplied
value, otherwise use the freshly generated UUID. -/
def set_run_id (v : Option String) (fresh : String) : String := v.getD fresh

/-- The `run_id` an `Assistant` holds right after construction: the
validator always produces a string. -/
def init_run_id (v : Option String) (fresh : String) : Option String :=
  some (set_run_id v fresh)

/-- Property `Assistant.streamable`: streaming is possible iff no output schema is
configured. -/
def Assistant.streamable (a : Assistant) : Bool := a.output_model.isNone

/-- Method `Assistant.to_database_row`: serialize the live state into a record. -/
def Assistant.to_database_row (a : Assistant) : AssistantRun :=
  { name := a.name
    run_id := a.run_id
    run_name := a.run_name
    user_id := a.user_id
    llm := a.llm.map LLM.to_dict
    memory := some a.memory
    assistant_data := a.assistant_data
    run_data := a.run_data
    user_data := a.user_data
    task_data := a.task_data }

/-- The first block of `from_database_row`: each identity field (`name`,
`run_id`, `run_name`, `user_id`) is overwritten from the row only when it
is unset live and set in the row. -/
def fdbIdentity (a : Assistant) (row : AssistantRun) : Assistant :=
  let a := if a.name = none ∧ row.name ≠ none then { a with name := row.name } else a
  let a := if a.run_id = none ∧ row.run_id ≠ none then { a with run_id := row.run_id } else a
  let a := if a.run_name = none ∧ row.run_name ≠ none then { a with run_name := row.run_name } else a
  let a := if a.user_id = none ∧ row.user_id ≠ none then { a with user_id := row.user_id } else a
  a

/-- The LLM block of `from_database_row`: when the row carries serialized
LLM state with a metrics dictionary and an LLM is configured live, the
live LLM's metrics are replaced from the row. -/
def fdbLlm (a : Assistant) (row : AssistantRun) : Assistant :=
  match row.llm with
  | some ld =>
    match ld.metrics with
    | some m =>
      match a.llm with
      | some l => { a with llm := some { l with metrics := m } }
      | none => a
    | none => a
  | none => a

/-- The memory block of `from_database_row`: a persisted memory replaces
the live one (validation of a record written by `to_database_row`
succeeds; a validation failure would be logged and skipped). -/
def fdbMemory (a : Assistant) (row : AssistantRun) : Assistant :=
  match row.memory with
  | some mem => { a with memory := mem }
  | none => a

/-- The `assistant_data` block of `from_database_row`: merge with the
live dictionary taking precedence, or adopt the persisted one wholesale
when no live one is set. -/
def fdbAssistantData (a : Assistant) (row : AssistantRun) : Assistant :=
  match row.assistant_data with
  | some rd =>
    match a.assistant_data with
    | some sd => { a with assistant_data := some (merge_dictionaries rd sd) }
    | none => { a with assistant_data := some rd }
  | none => a

/-- The `run_data` block of `from_database_row` (same merge policy). -/
def fdbRunData (a : Assistant) (row : AssistantRun) : Assistant :=
  match row.run_data with
  | some rd =>
    match a.run_data with
    | some sd => { a with run_data := some (merge_dictionaries rd sd) }
    | none => { a with run_data := some rd }
  | none => a

/-- The `user_data` block of `from_database_row` (same merge policy). -/
def fdbUserData (a : Assistant) (row : AssistantRun) : Assistant :=
  match row.user_data with
  | some rd =>
    match a.user_data with
    | some sd => { a with user_data := some (merge_dictionaries rd sd) }
    | none => { a with user_data := some rd }
  | none => a

/-- The `task_data` block of `from_database_row` (same merge policy). -/
def fdbTaskData (a : Assistant) (row : AssistantRun) : Assistant :=
  match row.task_data with
  | some rd =>
    match a.task_data with
    | some sd => { a with task_data := some (merge_dictionaries rd sd) }
    | none => { a with task_data := some rd }
  | none => a

/-- Method `Assistant.from_database_row`: load persisted state into the live
assistant — the identity, LLM-metrics, memory, and four metadata blocks
in source order. -/
def Assistant.from_database_row (a : Assistant) (row : AssistantRun) : Assistant :=
  fdbTaskData
    (fdbUserData
      (fdbRunData
        (fdbAssistantData
          (fdbMemory (fdbLlm (fdbIdentity a row) row) row) row) row) row) row

/-- Method `Assistant.read_from_storage`: fetch the record for the run id (the
fetched record is cached in `db_row` before the identity check); on a
user-id mismatch return no record without merging; otherwise merge the
record into live state and return it.  The result is
`(returned record, new state, storage accesses)`. -/
def Assistant.read_from_storage (a : Assistant) :
    Option AssistantRun × Assistant × List Op :=
  match a.storage, a.run_id with
  | some st, some rid =>
    let db := st.read rid
    let a1 := { a with db_row := db }
    match a.user_id, db with
    | some uid, some row =>
      if row.user_id ≠ some uid then (none, a1, [Op.opRead rid])
      else
        let a2 := a1.from_database_row row
        (a2.db_row, a2, [Op.opRead rid])
    | none, some row =>
      let a2 := a1.from_database_row row
      (a2.db_row, a2, [Op.opRead rid])
    | _, none => (none, a1, [Op.opRead rid])
  | _, _ => (a.db_row, a, [])

/-- Method `Assistant.write_to_storage`: serialize and upsert unconditionally,
caching the adapter's answer in `db_row`.  The result is
`(new state, returned record, storage accesses)`. -/
def Assistant.write_to_storage (a : Assistant) :
    Assistant × Option AssistantRun × List Op :=
  match a.storage with
  | some st =>
    let row := a.to_database_row
    let r := st.upsert row
    ({ a with db_row := r }, r, [Op.opUpsert row])
  | none => (a, a.db_row, [])

/-- Method `Assistant.add_introduction`: seed the chat history with the
introduction message, only when the history is still empty. -/
def Assistant.add_introduction (a : Assistant) (intro : String) : Assistant :=
  if a.memory.chat_history.length = 0 then
    { a with memory := a.memory.add_chat_message { role := "assistant", content := intro } }
  else a

/-- The write phase of `create_run` on the state `a2` (after the
optional introduction seeding): write the fresh record, treat a write
failure as fatal (`.error` carries the message and the state at the
raise), and reload from the written record; the returned id is the live
`run_id` after that reload. -/
def create_run_write (a2 : Assistant) (log1 : List Op) :
    Except (String × Assistant) (Option String × Assistant × List Op) :=
  let w := a2.write_to_storage
  let a3 := w.1
  match a3.db_row with
  | none => .error ("Failed to create new assistant run in storage", a3)
  | some row =>
    let a4 := a3.from_database_row row
    .ok (a4.run_id, a4, log1 ++ w.2.2)

/-- The continuation of `create_run` after the read-through, applied to
the state `a1` the read produced (and the read's side effects): if the
read cached a record, fall through and return the (unchanged) live run
id; otherwise seed the introduction when one is configured (and truthy)
and enter the write phase. -/
def create_run_go (a1 : Assistant) (log1 : List Op) :
    Except (String × Assistant) (Option String × Assistant × List Op) :=
  match a1.db_row with
  | some _ => .ok (a1.run_id, a1, log1)
  | none =>
    create_run_write
      (match a1.introduction with
       | some intro => if intro ≠ "" then a1.add_introduction intro else a1
       | none => a1) log1

/-- Method `Assistant.create_run`: return the cached record's id if one is
cached; otherwise, when storage is configured, read through storage and
continue with `create_run_go`. -/
def Assistant.create_run (a : Assistant) :
    Except (String × Assistant) (Option String × Assistant × List Op) :=
  match a.db_row with
  | some row => .ok (row.run_id, a, [])
  | none =>
    match a.storage with
    | none => .ok (a.run_id, a, [])
    | some _ =>
      let r := a.read_from_storage
      create_run_go r.2.1 r.2.2

/-! ### The task-chaining run pipeline (`_run`) -/

/-- The normalization of a batch task response performed in `_run`:
falsy responses contribute nothing; strings pass through; model instances
are serialized with `model_dump_json(exclude_none=True, indent=2)`;
other values are JSON-encoded with `json.dumps`. -/
def normalizeResp : Option TaskValue → String
  | none => ""
  | some v =>
    if truthyTaskValue v then
      match v with
      | .tstr s => s
      | .tmodel m => model_dump_json m
      | .traw p => json_dumps p
    else ""

/-- The input message `_run` hands to the current task: the previous
task's output if there is one (model instances serialized to canonical
JSON text, strings and other values passed as they are), else the
caller's original message.  `prev` carries the previous task and the
message it ran on; `stream` fixes the mode the previous task ran in. -/
def nextMessage (stream : Bool) (prev : Option (Task × Option PyVal))
    (message : Option PyVal) : Option PyVal :=
  match prev with
  | none => message
  | some (pt, pmsg) =>
    match pt.outputAfter (stream && pt.streamable) pmsg with
    | none => message
    | some (.tstr s) => some (.pstr s)
    | some (.tmodel m) => some (.pstr (model_dump_json m))
    | some (.traw v) => some v

/-- One task's contribution in `_run`: the chunks it causes to be yielded
and the text it appends to the aggregated `run_output`. -/
structure TaskStep where
  chunks : List String
  contrib : String

/-- The contribution of running one task in `_run`.  In streaming mode on
a streamable task every chunk is yielded and accumulated when the task is
visible; otherwise the task runs in batch mode and its normalized
response is yielded once (streaming) or appended to the aggregate
(non-streaming), only when the response is truthy and the task is
visible. -/
def taskStep (stream : Bool) (t : Task) (m : Option PyVal) : TaskStep :=
  if stream && t.streamable then
    let cks := t.runChunks m
    { chunks := if t.show_output then cks else [],
      contrib := if t.show_output then String.join cks else "" }
  else
    let resp := t.runBatch m
    let isT := match resp with | some v => truthyTaskValue v | none => false
    let respStr := normalizeResp resp
    { chunks := if isT && t.show_output && stream then [respStr] else [],
      contrib := if isT && t.show_output && !stream then respStr else "" }

/-- The observables of the task loop in `_run`: all yielded chunks, the
aggregated `run_output`, and the input message handed to each task. -/
structure LoopOut where
  chunks : List String
  run_output : String
  inputs : List (Option PyVal)

/-- The task loop of `_run`: between tasks a blank-line separator is
yielded (streaming) and appended to the aggregate whenever the previous
task was visible; each task receives `nextMessage` as input and
contributes `taskStep`.  (The loop also injects run id, assistant name,
memory, a copy of the assistant's LLM, and `parse_output = False` into
each task; in this embedding a task's behavior functions already describe
the fully configured task, so those injections do not appear as separate
state.) -/
def runLoop (message : Option PyVal) (stream : Bool) :
    List Task → Option (Task × Option PyVal) → LoopOut
  | [], _ => { chunks := [], run_output := "", inputs := [] }
  | t :: ts, prev =>
    let sepText : String :=
      match prev with
      | some (pt, _) => if pt.show_output then "\n\n" else ""
      | none => ""
    let sepChunks : List String :=
      if stream then (if sepText = "" then [] else [sepText]) else []
    let m := nextMessage stream prev message
    let step := taskStep stream t m
    let rest := runLoop message stream ts (some (t, m))
    { chunks := sepChunks ++ step.chunks ++ rest.chunks,
      run_output := sepText ++ step.contrib ++ rest.run_output,
      inputs := m :: rest.inputs }

/-- Modelled from the spec: the default LLM task (`Assistant.llm_task`)
substituted when no task list is configured — a single visible,
streamable language-model call whose behavior is the configured LLM's
behavior under the assistant's full prompt construction (a task with no
LLM produces nothing). -/
def Assistant.llm_task (a : Assistant) : Task :=
  { show_output := true
    streamable := true
    llm := a.llm
    runBatch := fun m => match a.llm with | some l => l.respond m | none => none
    runChunks := fun m => match a.llm with | some l => l.respondChunks m | none => []
    outputAfter := fun _ m => match a.llm with | some l => l.respond m | none => none }

/-- The observables of one `_run` invocation: the yielded chunks, the
aggregated text, the per-task input messages, the final assistant state,
and the storage accesses. -/
structure RunTrace where
  chunks : List String
  aggregate : String
  inputs : List (Option PyVal)
  state : Assistant
  log : List Op

/-- Method `Assistant._run`: reload from storage, substitute the default LLM
task when no tasks are configured, execute the task loop, write through
to storage, record the aggregate as the assistant's `output`, and — only
when not streaming — yield the aggregate as the single chunk. -/
def Assistant.assistant_run (a : Assistant) (message : Option PyVal)
    (stream : Bool) : RunTrace :=
  let r := a.read_from_storage
  let a1 := r.2.1
  let tasks :=
    match a1.tasks with
    | some ts => if ts.isEmpty then [a1.llm_task] else ts
    | none => [a1.llm_task]
  let lo := runLoop message stream tasks none
  let w := a1.write_to_storage
  let a2 := w.1
  let a3 := { a2 with output := some (.otext lo.run_output) }
  { chunks := lo.chunks ++ (if stream then [] else [lo.run_output])
    aggregate := lo.run_output
    inputs := lo.inputs
    state := a3
    log := r.2.2 ++ w.2.2 }

/-- The value `run()` gives back to the caller: a lazy chunk iterator, a
plain string, or a structured (schema-validated or generic JSON) object. -/
inductive RunResult where
  | rstream : List String → RunResult
  | rtext : String → RunResult
  | rstructured : Jv → RunResult

/-- The stored output rendered as a `run()` return value. -/
def outToResult : OutVal → RunResult
  | .otext s => .rtext s
  | .ojson j => .rstructured j
  | .omodel j => .rstructured j

/-- The `else` arm of `run()`: stream the pipeline when requested and
possible, otherwise run it to completion and return the aggregate. -/
def Assistant.run_noparse (a : Assistant) (message : Option PyVal)
    (stream : Bool) : RunResult × Assistant :=
  if stream && a.streamable then
    let tr := a.assistant_run message true
    (.rstream tr.chunks, tr.state)
  else
    let tr := a.assistant_run message false
    (.rtext tr.aggregate, tr.state)

/-- A successful structured result replaces the assistant's stored
output; a failed parse leaves the state as the pipeline produced it. -/
def applyStructured (a1 : Assistant) (structured : Option OutVal) : Assistant :=
  match structured with
  | some o => { a1 with output := some o }
  | none => a1

/-- Method `Assistant.run`: when an output schema is configured and parsing is
enabled, force the pipeline to run non-streaming, then attempt generic
JSON parsing (primitive marker) or schema validation (object schema) with
one fence-stripping retry; a successful structured result replaces the
stored output, and the caller receives `self.output or json_resp` —
which is the raw aggregate text whenever every attempt failed. -/
def Assistant.run_impl (a : Assistant) (message : Option PyVal)
    (stream : Bool) : RunResult × Assistant :=
  match a.output_model with
  | some om =>
    if a.parse_output then
      let tr := a.assistant_run message false
      let json_resp := tr.aggregate
      let a1 := tr.state
      let structured : Option OutVal :=
        match om with
        | .primitive => (json_loads json_resp).map OutVal.ojson
        | .schema validate =>
          match validate json_resp with
          | some v => some (.omodel v)
          | none =>
            if pyStartsWith json_resp "```json" then
              (validate (pyReplace (pyReplace json_resp "```json\n" "") "\n```" "")).map
                OutVal.omodel
            else none
      let a2 := applyStructured a1 structured
      let res :=
        match a2.output with
        | some o => if truthyOut o then outToResult o else RunResult.rtext json_resp
        | none => RunResult.rtext json_resp
      (res, a2)
    else a.run_noparse message stream
  | none => a.run_noparse message stream

/-! ### Raw chat passthrough -/

/-- Method `Assistant._chat_raw` is a Python generator; this is its body, run to
completion (what a caller observes once it pulls the iterator): check the
LLM is set, reload from storage, append a truthy user message to chat
history, contact the model (streamed deltas or one batch response),
append the forwarded messages to the raw log, append the *last input
message* to chat history as the "LLM response" (an `IndexError` on an
empty message list propagates), write through, and yield the deltas
(streaming) or the single batch response.  `.error` carries the exception
message and the state at the raise. -/
def Assistant.chat_raw_body (a : Assistant) (messages : List Message)
    (user_message : Option String) (stream : Bool) :
    Except (String × Assistant) (List PyVal × Assistant × List Op) :=
  match a.llm with
  | none => .error ("LLM not set", a)
  | some l =>
    let r := a.read_from_storage
    let a1 := r.2.1
    let a2 :=
      match user_message with
      | some um =>
        if um ≠ "" then
          { a1 with memory := a1.memory.add_chat_message { role := "user", content := um } }
        else a1
      | none => a1
    let yielded : List PyVal :=
      if stream then l.generate_stream messages else []
    let batch : Option PyVal :=
      if stream then none else some (l.generate messages)
    let genLog : List Op := if stream then [Op.opLLMStream] else [Op.opLLMGen]
    let a3 := { a2 with memory := a2.memory.add_llm_messages messages }
    match messages.getLast? with
    | none => .error ("list index out of range", a3)
    | some lastMsg =>
      let a4 := { a3 with memory := a3.memory.add_chat_message lastMsg }
      let w := a4.write_to_storage
      let a5 := w.1
      .ok (yielded ++ (match batch with | some b => [b] | none => []),
        a5, r.2.2 ++ genLog ++ w.2.2)

/-- What `chat_raw` hands back at the call site: in streaming mode the
un-iterated generator (whose body has not run yet), in batch mode the
model's response. -/
inductive ChatRawCall where
  | generatorValue : ChatRawCall
  | batchResult : PyVal → ChatRawCall

/-- Method `Assistant.chat_raw`: a configured task list is a usage error raised
at the call; in streaming mode the generator is returned without running
its body (so no further check has happened yet); in batch mode the body
runs to its single yield and the response is returned. -/
def Assistant.chat_raw (a : Assistant) (messages : List Message)
    (user_message : Option String) (stream : Bool) :
    Except (String × Assistant) (ChatRawCall × Assistant × List Op) :=
  if (match a.tasks with | some ts => decide (0 < ts.length) | none => false) then
    .error ("chat_raw does not support tasks", a)
  else if stream then
    .ok (.generatorValue, a, [])
  else
    match a.chat_raw_body messages user_message false with
    | .error e => .error e
    | .ok (ys, a', log) =>
      .ok (.batchResult (ys.headD (.pstr "")), a', log)

/-! ### Naming helpers -/

/-- The transcript picked for the naming prompt: drop a leading assistant
introduction and keep the first few visible turns
(`chat_history[1:6]` / `chat_history[:6]`); when that leaves nothing
(including the empty-history `IndexError`, which is caught), fall back to
the last four raw messages. -/
def generate_name_picked (a : Assistant) : List Message :=
  let picked :=
    match a.memory.chat_history with
    | [] => []
    | m :: rest =>
      if m.role = "assistant" then rest.take 5 else (m :: rest).take 6
  if picked.isEmpty then
    a.memory.llm_messages.drop (a.memory.llm_messages.length - 4)
  else picked

/-- The two messages `generate_name` sends to the model: the fixed
naming instruction and the condensed transcript. -/
def generate_name_messages (a : Assistant) : List Message :=
  let conv :=
    "Conversation\n" ++
      String.join ((generate_name_picked a).map
        (fun m => m.role.toUpper ++ ": " ++ m.content ++ "\n")) ++
      "\n\nConversation Name: "
  [{ role := "system",
     content := "Please provide a suitable name for this conversation in maximum 5 words. " ++
       "Remember, do not exceed 5 words." },
   { role := "user", content := conv }]

/-- The accept/retry loop of `generate_name`: a response of more than 15
words is rejected and the call is retried (in the source this recursion
is unbounded; `fuel` bounds it here and `none` marks divergence), an
accepted response is returned with double quotes removed and surrounding
whitespace stripped. -/
def generate_name_core (l : LLM) (msgs : List Message) : Nat → Option String
  | 0 => none
  | fuel + 1 =>
    let g := l.response msgs
    if 15 < (pySplit g).length then generate_name_core l msgs fuel
    else some (pyStrip (pyReplace g "\x22" ""))

/-- Method `Assistant.generate_name`: requires a configured LLM, then runs the
accept/retry loop on the condensed transcript. -/
def Assistant.generate_name (a : Assistant) (fuel : Nat) :
    Except String (Option String) :=
  match a.llm with
  | none => .error "LLM not set"
  | some l => .ok (generate_name_core l (generate_name_messages a) fuel)

/-- Method `Assistant.rename`: read through, set the assistant name, write
through. -/
def Assistant.rename (a : Assistant) (nm : String) : Assistant × List Op :=
  let r := a.read_from_storage
  let a1 := { r.2.1 with name := some nm }
  let w := a1.write_to_storage
  (w.1, r.2.2 ++ w.2.2)

/-- Method `Assistant.rename_run`: read through, set the run name, write
through. -/
def Assistant.rename_run (a : Assistant) (nm : String) : Assistant × List Op :=
  let r := a.read_from_storage
  let a1 := { r.2.1 with run_name := some nm }
  let w := a1.write_to_storage
  (w.1, r.2.2 ++ w.2.2)

/-- Method `Assistant.auto_rename_run`: read through, generate a name (`.ok
none` marks a diverging retry loop), assign it as the run name, write
through. -/
def Assistant.auto_rename_run (a : Assistant) (fuel : Nat) :
    Except String (Option (Assistant × List Op)) :=
  let r := a.read_from_storage
  let a1 := r.2.1
  match a1.generate_name fuel with
  | .error e => .error e
  | .ok none => .ok none
  | .ok (some nm) =>
    let a2 := { a1 with run_name := some nm }
    let w := a2.write_to_storage
    .ok (some (w.1, r.2.2 ++ w.2.2))

/-! ### Closed-form helpers used to state the theorems -/

/-- The effect of `from_database_row` on one identity field: keep the
live value when set, else take the row's. -/
def oFill (live rowv : Option String) : Option String :=
  match live with
  | some v => some v
  | none => rowv

/-- The effect of `from_database_row` on one metadata dictionary: merge
with the live one taking precedence, adopt the persisted one when no live
one is set, keep the live one when the row has none. -/
def dictFill (live rowd : Option MDict) : Option MDict :=
  match rowd with
  | some rd =>
    match live with
    | some sd => some (merge_dictionaries rd sd)
    | none => some rd
  | none => live

/-- The effect of `from_database_row` on the configured LLM: replace its
metrics from the row's serialized LLM state when both are present. -/
def llmFill (live : Option LLM) (rowl : Option LLMData) : Option LLM :=
  match rowl, live with
  | some ld, some l =>
    match ld.metrics with
    | some m => some { l with metrics := m }
    | none => some l
  | _, _ => live

/-- The assistant state an `Except`-returning operation ends in, whether
it raised (the state at the raise) or returned. -/
def exceptState {α : Type} (e : Except (String × Assistant) (α × Assistant × List Op)) :
    Assistant :=
  match e with
  | .error p => p.2
  | .ok t => t.2.1

/-- The assistant state after `auto_rename_run`, with the initial state
standing in for a raise or a diverging retry loop. -/
def autoRenameState (a : Assistant) (fuel : Nat) : Assistant :=
  match a.auto_rename_run fuel with
  | .ok (some p) => p.1
  | _ => a

/-! ### Concrete inputs used by the witnesses and counterexamples -/

/-- A language-model client with inert behavior, specialized per test. -/
def dummyLLM : LLM :=
  { response := fun _ => ""
    generate := fun _ => .pstr ""
    generate_stream := fun _ => []
    respond := fun _ => none
    respondChunks := fun _ => []
    metrics := [] }

/-- A task with inert behavior, specialized per test. -/
def dummyTask : Task :=
  { runBatch := fun _ => none
    runChunks := fun _ => []
    outputAfter := fun _ _ => none }

/-- A persisted record owned by user `u2` under run id `r1`. -/
def rowC1 : AssistantRun := { run_id := some "r1", user_id := some "u2" }

/-- A storage adapter holding exactly `rowC1` and echoing upserts. -/
def stC1 : AssistantStorage :=
  { read := fun rid => if rid = "r1" then some rowC1 else none
    upsert := fun r => some r }

/-- An assistant for user `u1` pointed at run `r1`, which storage says
belongs to user `u2`. -/
def aC1 : Assistant :=
  { run_id := some "r1", user_id := some "u1", storage := some stC1 }

/-- A model-producing first task: its output is a pydantic instance whose
canonical serialization is `{"x": 7}`-like JSON text. -/
def taskC2a : Task :=
  { dummyTask with
    runBatch := fun _ => some (.tmodel { dump := "\x7b\x22x\x22: 7\x7d" })
    outputAfter := fun _ _ => some (.tmodel { dump := "\x7b\x22x\x22: 7\x7d" }) }

/-- A second task that records nothing; only its input matters. -/
def taskC2b : Task := dummyTask

/-- A two-task assistant chaining a structured output into a second task. -/
def aC2 : Assistant := { tasks := some [taskC2a, taskC2b] }

/-- pydantic `model_validate_json` for the example object schema with a
single integer field `a`: parse the JSON text, require an object with an
integer under key `a` (extra fields are ignored), and return the
validated instance. -/
def validateA (s : String) : Option Jv :=
  match json_loads s with
  | some (.jobj fields) =>
    match jlookup fields "a" with
    | some (.jint n) => some (.jobj [("a", .jint n)])
    | _ => none
  | _ => none

/-- The fenced model answer of the structured-output example. -/
def fencedC3 : String := "```json\n\x7b\x22a\x22:1\x7d\n```"

/-- A task answering the fenced JSON text. -/
def taskC3 : Task :=
  { dummyTask with runBatch := fun _ => some (.tstr fencedC3) }

/-- An assistant configured with the example object schema whose single
task answers the fenced JSON text. -/
def aC3 : Assistant :=
  { tasks := some [taskC3]
    output_model := some (.schema validateA)
    parse_output := true }

/-- A streamable task whose streamed chunks concatenate to its batch
response. -/
def taskC4 : Task :=
  { dummyTask with
    runBatch := fun _ => some (.tstr "Hello world")
    runChunks := fun _ => ["Hello", " ", "world"] }

/-- A single-task assistant for the streaming/batch agreement test. -/
def aC4 : Assistant := { tasks := some [taskC4] }

/-- A storage adapter with no persisted records that echoes upserts. -/
def stC5 : AssistantStorage :=
  { read := fun _ => none
    upsert := fun r => some r }

/-- A storage adapter whose upserts always fail. -/
def stC5fail : AssistantStorage :=
  { read := fun _ => none
    upsert := fun _ => none }

/-- A fresh assistant with an introduction, empty history, and empty
storage. -/
def aC5 : Assistant :=
  { run_id := some "r5", introduction := some "hello", storage := some stC5 }

/-- A fresh assistant whose storage rejects the creation write. -/
def aC5fail : Assistant :=
  { run_id := some "r5", introduction := some "hello", storage := some stC5fail }

/-- An assistant whose live `run_data` is `x = 1`. -/
def aC6 : Assistant := { run_data := some [("x", .mint 1)] }

/-- A persisted record whose `run_data` is `x = 2, y = 3`. -/
def rowC6 : AssistantRun := { run_data := some [("x", .mint 2), ("y", .mint 3)] }

/-- An assistant with no language model and no tasks. -/
def aC7 : Assistant := {}

/-- A language model that proposes the three-word name
`"Tomorrow's Sync Plan"` (with surrounding double quotes). -/
def lC8 : LLM :=
  { dummyLLM with response := fun _ => "\x22Tomorrow\x27s Sync Plan\x22" }

/-- An assistant whose model proposes the quoted three-word name. -/
def aC8 : Assistant := { llm := some lC8 }

/-- An assistant with a set run id, for the run-id invariant witness. -/
def aC9 : Assistant := { run_id := some "r9" }

/-- A record carrying a different run id, for the run-id invariant
witness. -/
def rowC9 : AssistantRun := { run_id := some "other" }

/-! ## Lemmas about the dictionary merge -/

theorem mlookup_append (l1 l2 : MDict) (k : String) :
    mlookup (l1 ++ l2) k = (mlookup l1 k).orElse (fun _ => mlookup l2 k) := by
  induction l1 with
  | nil => simp [mlookup]
  | cons p rest ih =>
    obtain ⟨k₁, v₁⟩ := p
    by_cases h : k₁ = k
    · simp [mlookup, h]
    · simp [mlookup, h, ih]

theorem mlookup_map_override (base upd : MDict) (k : String) :
    mlookup (base.map (fun p => (p.1, (mlookup upd p.1).getD p.2))) k
      = (mlookup base k).map (fun v => (mlookup upd k).getD v) := by
  induction base with
  | nil => simp [mlookup]
  | cons p rest ih =>
    obtain ⟨k₁, v₁⟩ := p
    by_cases h : k₁ = k
    · subst h; simp [mlookup]
    · simp [mlookup, h, ih]

theorem mlookup_filter_base (base upd : MDict) (k : String) :
    mlookup (upd.filter (fun p => (mlookup base p.1).isNone)) k
      = if (mlookup base k).isNone then mlookup upd k else none := by
  induction upd with
  | nil => simp [mlookup]
  | cons p rest ih =>
    obtain ⟨k₁, v₁⟩ := p
    by_cases h : k₁ = k
    · subst h
      by_cases hkeep : (mlookup base k₁).isNone
      · simp [mlookup, hkeep]
      · simp [mlookup, hkeep, ih]
    · by_cases hkeep : (mlookup base k₁).isNone
      · simp [mlookup, hkeep, h, ih]
      · simp [mlookup, hkeep, h, ih]

theorem mlookup_merge (base upd : MDict) (k : String) :
    mlookup (merge_dictionaries base upd) k
      = (mlookup upd k).orElse (fun _ => mlookup base k) := by
  unfold merge_dictionaries
  rw [mlookup_append, mlookup_map_override, mlookup_filter_base]
  cases hb : mlookup base k <;> cases hu : mlookup upd k <;> simp [hb, hu]

/-! ## Closed form of `from_database_row` -/

theorem fdbIdentity_eq (a : Assistant) (row : AssistantRun) :
    fdbIdentity a row =
      { a with
        name := oFill a.name row.name
        run_id := oFill a.run_id row.run_id
        run_name := oFill a.run_name row.run_name
        user_id := oFill a.user_id row.user_id } := by
  obtain ⟨rname, rrid, rrname, ruid, rllm, rmem, rad, rrd, rud, rtd⟩ := row
  obtain ⟨llm, intr, name, ad, rid, rn, rd, uid, ud, mem, st, dbr, om, po, out, tks, td, md⟩ := a
  cases name <;> cases rname <;> cases rid <;> cases rrid <;>
    cases rn <;> cases rrname <;> cases uid <;> cases ruid <;> rfl

theorem fdbLlm_eq (a : Assistant) (row : AssistantRun) :
    fdbLlm a row = { a with llm := llmFill a.llm row.llm } := by
  obtain ⟨rname, rrid, rrname, ruid, rllm, rmem, rad, rrd, rud, rtd⟩ := row
  obtain ⟨llm, intr, name, ad, rid, rn, rd, uid, ud, mem, st, dbr, om, po, out, tks, td, md⟩ := a
  cases rllm with
  | none => cases llm <;> rfl
  | some ld =>
    obtain ⟨mopt⟩ := ld
    cases mopt <;> cases llm <;> rfl

theorem fdbMemory_eq (a : Assistant) (row : AssistantRun) :
    fdbMemory a row = { a with memory := row.memory.getD a.memory } := by
  obtain ⟨rname, rrid, rrname, ruid, rllm, rmem, rad, rrd, rud, rtd⟩ := row
  cases rmem <;> rfl

theorem fdbAssistantData_eq (a : Assistant) (row : AssistantRun) :
    fdbAssistantData a row =
      { a with assistant_data := dictFill a.assistant_data row.assistant_data } := by
  obtain ⟨rname, rrid, rrname, ruid, rllm, rmem, rad, rrd, rud, rtd⟩ := row
  obtain ⟨llm, intr, name, ad, rid, rn, rd, uid, ud, mem, st, dbr, om, po, out, tks, td, md⟩ := a
  cases rad <;> cases ad <;> rfl

theorem fdbRunData_eq (a : Assistant) (row : AssistantRun) :
    fdbRunData a row = { a with run_data := dictFill a.run_data row.run_data } := by
  obtain ⟨rname, rrid, rrname, ruid, rllm, rmem, rad, rrd, rud, rtd⟩ := row
  obtain ⟨llm, intr, name, ad, rid, rn, rd, uid, ud, mem, st, dbr, om, po, out, tks, td, md⟩ := a
  cases rrd <;> cases rd <;> rfl

theorem fdbUserData_eq (a : Assistant) (row : AssistantRun) :
    fdbUserData a row = { a with user_data := dictFill a.user_data row.user_data } := by
  obtain ⟨rname, rrid, rrname, ruid, rllm, rmem, rad, rrd, rud, rtd⟩ := row
  obtain ⟨llm, intr, name, ad, rid, rn, rd, uid, ud, mem, st, dbr, om, po, out, tks, td, md⟩ := a
  cases rud <;> cases ud <;> rfl

theorem fdbTaskData_eq (a : Assistant) (row : AssistantRun) :
    fdbTaskData a row = { a with task_data := dictFill a.task_data row.task_data } := by
  obtain ⟨rname, rrid, rrname, ruid, rllm, rmem, rad, rrd, rud, rtd⟩ := row
  obtain ⟨llm, intr, name, ad, rid, rn, rd, uid, ud, mem, st, dbr, om, po, out, tks, td, md⟩ := a
  cases rtd <;> cases td <;> rfl

theorem from_database_row_eq (a : Assistant) (row : AssistantRun) :
    a.from_database_row row =
      { a with
        name := oFill a.name row.name
        run_id := oFill a.run_id row.run_id
        run_name := oFill a.run_name row.run_name
        user_id := oFill a.user_id row.user_id
        llm := llmFill a.llm row.llm
        memory := row.memory.getD a.memory
        assistant_data := dictFill a.assistant_data row.assistant_data
        run_data := dictFill a.run_data row.run_data
        user_data := dictFill a.user_data row.user_data
        task_data := dictFill a.task_data row.task_data } := by
  unfold Assistant.from_database_row
  rw [fdbIdentity_eq, fdbLlm_eq, fdbMemory_eq, fdbAssistantData_eq,
    fdbRunData_eq, fdbUserData_eq, fdbTaskData_eq]

theorem fdb_name (a : Assistant) (row : AssistantRun) :
    (a.from_database_row row).name = oFill a.name row.name := by
  rw [from_database_row_eq]

theorem fdb_run_id (a : Assistant) (row : AssistantRun) :
    (a.from_database_row row).run_id = oFill a.run_id row.run_id := by
  rw [from_database_row_eq]

theorem fdb_run_name (a : Assistant) (row : AssistantRun) :
    (a.from_database_row row).run_name = oFill a.run_name row.run_name := by
  rw [from_database_row_eq]

theorem fdb_user_id (a : Assistant) (row : AssistantRun) :
    (a.from_database_row row).user_id = oFill a.user_id row.user_id := by
  rw [from_database_row_eq]

theorem fdb_memory (a : Assistant) (row : AssistantRun) :
    (a.from_database_row row).memory = row.memory.getD a.memory := by
  rw [from_database_row_eq]

theorem fdb_assistant_data (a : Assistant) (row : AssistantRun) :
    (a.from_database_row row).assistant_data
      = dictFill a.assistant_data row.assistant_data := by
  rw [from_database_row_eq]

theorem fdb_run_data (a : Assistant) (row : AssistantRun) :
    (a.from_database_row row).run_data = dictFill a.run_data row.run_data := by
  rw [from_database_row_eq]

theorem fdb_user_data (a : Assistant) (row : AssistantRun) :
    (a.from_database_row row).user_data = dictFill a.user_data row.user_data := by
  rw [from_database_row_eq]

theorem fdb_task_data (a : Assistant) (row : AssistantRun) :
    (a.from_database_row row).task_data = dictFill a.task_data row.task_data := by
  rw [from_database_row_eq]

theorem fdb_tasks (a : Assistant) (row : AssistantRun) :
    (a.from_database_row row).tasks = a.tasks := by
  rw [from_database_row_eq]

theorem fdb_storage (a : Assistant) (row : AssistantRun) :
    (a.from_database_row row).storage = a.storage := by
  rw [from_database_row_eq]

theorem fdb_db_row (a : Assistant) (row : AssistantRun) :
    (a.from_database_row row).db_row = a.db_row := by
  rw [from_database_row_eq]

theorem fdb_introduction (a : Assistant) (row : AssistantRun) :
    (a.from_database_row row).introduction = a.introduction := by
  rw [from_database_row_eq]

theorem fdb_output_model (a : Assistant) (row : AssistantRun) :
    (a.from_database_row row).output_model = a.output_model := by
  rw [from_database_row_eq]

theorem fdb_parse_output (a : Assistant) (row : AssistantRun) :
    (a.from_database_row row).parse_output = a.parse_output := by
  rw [from_database_row_eq]

/-! ## Scenario lemmas for the storage operations -/

theorem write_to_storage_some (a : Assistant) (st : AssistantStorage)
    (h : a.storage = some st) :
    a.write_to_storage =
      ({ a with db_row := st.upsert a.to_database_row },
        st.upsert a.to_database_row, [Op.opUpsert a.to_database_row]) := by
  unfold Assistant.write_to_storage
  rw [h]

theorem write_to_storage_none (a : Assistant) (h : a.storage = none) :
    a.write_to_storage = (a, a.db_row, []) := by
  unfold Assistant.write_to_storage
  rw [h]

theorem read_from_storage_inert (a : Assistant)
    (h : a.storage = none ∨ a.run_id = none) :
    a.read_from_storage = (a.db_row, a, []) := by
  unfold Assistant.read_from_storage
  rcases h with h | h
  · rw [h]
  · rw [h]; cases a.storage <;> rfl

theorem read_from_storage_no_row (a : Assistant) (st : AssistantStorage)
    (rid : String) (hst : a.storage = some st) (hrid : a.run_id = some rid)
    (hread : st.read rid = none) :
    a.read_from_storage = (none, { a with db_row := none }, [Op.opRead rid]) := by
  unfold Assistant.read_from_storage
  rw [hst, hrid]
  cases huid : a.user_id <;> simp [hread]

theorem read_from_storage_mismatch (a : Assistant) (st : AssistantStorage)
    (rid uid : String) (row : AssistantRun) (hst : a.storage = some st)
    (hrid : a.run_id = some rid) (huid : a.user_id = some uid)
    (hread : st.read rid = some row) (hdiff : row.user_id ≠ some uid) :
    a.read_from_storage = (none, { a with db_row := some row }, [Op.opRead rid]) := by
  unfold Assistant.read_from_storage
  rw [hst, hrid]
  simp [huid, hread, hdiff]

theorem read_from_storage_found_no_user (a : Assistant) (st : AssistantStorage)
    (rid : String) (row : AssistantRun) (hst : a.storage = some st)
    (hrid : a.run_id = some rid) (huid : a.user_id = none)
    (hread : st.read rid = some row) :
    a.read_from_storage =
      (some row, ({ a with db_row := some row }).from_database_row row,
        [Op.opRead rid]) := by
  unfold Assistant.read_from_storage
  rw [hst, hrid]
  simp [huid, hread, fdb_db_row]

theorem read_from_storage_found_user_ok (a : Assistant) (st : AssistantStorage)
    (rid uid : String) (row : AssistantRun) (hst : a.storage = some st)
    (hrid : a.run_id = some rid) (huid : a.user_id = some uid)
    (hread : st.read rid = some row) (hagree : row.user_id = some uid) :
    a.read_from_storage =
      (some row, ({ a with db_row := some row }).from_database_row row,
        [Op.opRead rid]) := by
  unfold Assistant.read_from_storage
  rw [hst, hrid]
  simp [huid, hread, hagree, fdb_db_row]

theorem read_from_storage_cases (a : Assistant)
    (motive : (Option AssistantRun × Assistant × List Op) → Prop)
    (hInert : motive (a.db_row, a, []))
    (hNoRow : ∀ rid, motive (none, { a with db_row := none }, [Op.opRead rid]))
    (hMismatch : ∀ rid row, motive (none, { a with db_row := some row }, [Op.opRead rid]))
    (hFound : ∀ rid row, a.run_id = some rid →
      motive (some row, ({ a with db_row := some row }).from_database_row row,
        [Op.opRead rid])) :
    motive a.read_from_storage := by
  cases hst : a.storage with
  | none => rw [read_from_storage_inert a (Or.inl hst)]; exact hInert
  | some st =>
    cases hrid : a.run_id with
    | none => rw [read_from_storage_inert a (Or.inr hrid)]; exact hInert
    | some rid =>
      cases hdb : st.read rid with
      | none =>
        rw [read_from_storage_no_row a st rid hst hrid hdb]; exact hNoRow rid
      | some row =>
        cases huid : a.user_id with
        | none =>
          rw [read_from_storage_found_no_user a st rid row hst hrid huid hdb]
          exact hFound rid row hrid
        | some uid =>
          by_cases hx : row.user_id = some uid
          · rw [read_from_storage_found_user_ok a st rid uid row hst hrid huid hdb hx]
            exact hFound rid row hrid
          · rw [read_from_storage_mismatch a st rid uid row hst hrid huid hdb hx]
            exact hMismatch rid row

theorem read_from_storage_run_id (a : Assistant) :
    (a.read_from_storage).2.1.run_id = a.run_id := by
  refine read_from_storage_cases a (fun r => r.2.1.run_id = a.run_id) rfl
    (fun _ => rfl) (fun _ _ => rfl) (fun rid row hrid => ?_)
  simp [fdb_run_id, oFill, hrid]

theorem read_from_storage_tasks (a : Assistant) :
    (a.read_from_storage).2.1.tasks = a.tasks := by
  refine read_from_storage_cases a (fun r => r.2.1.tasks = a.tasks) rfl
    (fun _ => rfl) (fun _ _ => rfl) (fun rid row _ => ?_)
  simp [fdb_tasks]

theorem read_from_storage_storage (a : Assistant) :
    (a.read_from_storage).2.1.storage = a.storage := by
  refine read_from_storage_cases a (fun r => r.2.1.storage = a.storage) rfl
    (fun _ => rfl) (fun _ _ => rfl) (fun rid row _ => ?_)
  simp [fdb_storage]

theorem read_from_storage_introduction (a : Assistant) :
    (a.read_from_storage).2.1.introduction = a.introduction := by
  refine read_from_storage_cases a (fun r => r.2.1.introduction = a.introduction) rfl
    (fun _ => rfl) (fun _ _ => rfl) (fun rid row _ => ?_)
  simp [fdb_introduction]

theorem dictFill_none (rowd : Option MDict) : dictFill none rowd = rowd := by
  cases rowd <;> rfl

theorem dictFill_some_some (sd rd : MDict) :
    dictFill (some sd) (some rd) = some (merge_dictionaries rd sd) := rfl

/-! ## Claim C1 -/

/-- C1 (corrected): when `read_from_storage` runs with the caller's
`user_id` set and storage returns a record for the run id whose `user_id`
disagrees, the read fails closed — it returns no record and leaves the
memory and every metadata dictionary untouched — but, contrary to the
original claim, the cached `db_row` is not left unchanged: the fetched
record is cached in `db_row` before the identity check, so the final
state is exactly the original state with `db_row` replaced by the fetched
record, and the only side effect is the single storage read. -/
theorem claim_C1_theorem (a : Assistant) (st : AssistantStorage)
    (rid uid : String) (row : AssistantRun) (hst : a.storage = some st)
    (hrid : a.run_id = some rid) (huid : a.user_id = some uid)
    (hread : st.read rid = some row) (hdiff : row.user_id ≠ some uid) :
    a.read_from_storage = (none, { a with db_row := some row }, [Op.opRead rid]) :=
  read_from_storage_mismatch a st rid uid row hst hrid huid hread hdiff

/-- C1 witness: the amended statement at the concrete mismatch scenario
(user `u1` reading run `r1`, which storage attributes to user `u2`). -/
theorem claim_C1_witness :
    aC1.read_from_storage
      = (none, { aC1 with db_row := some rowC1 }, [Op.opRead "r1"]) :=
  claim_C1_theorem aC1 stC1 "r1" "u1" rowC1 rfl rfl rfl rfl (by decide)

/-- C1 counterexample: in the same mismatch scenario the claim as stated
is false — `read_from_storage` does return no record, but the live
`db_row` does not stay unchanged: it was `none` before the call and holds
the other user's record afterwards. -/
theorem claim_C1_counterexample :
    (aC1.read_from_storage).1 = none ∧
    aC1.db_row = none ∧
    (aC1.read_from_storage).2.1.db_row = some rowC1 := by
  refine ⟨?_, rfl, ?_⟩ <;> rfl

/-! ## Claim C6 -/

/-- C6 (confirmed): for each of the four metadata dictionaries,
`from_database_row` merges a persisted dictionary with the live one so
that the live value wins on every key conflict and persisted values fill
the remaining keys (`mlookup` of the merge is live-first), and when no
live dictionary is set the persisted one is adopted entirely. -/
theorem claim_C6_theorem (a : Assistant) (row : AssistantRun) :
    ((∀ dDb dLive, row.assistant_data = some dDb → a.assistant_data = some dLive →
        (a.from_database_row row).assistant_data = some (merge_dictionaries dDb dLive) ∧
        ∀ k, mlookup (merge_dictionaries dDb dLive) k
          = (mlookup dLive k).orElse (fun _ => mlookup dDb k)) ∧
      (a.assistant_data = none →
        (a.from_database_row row).assistant_data = row.assistant_data)) ∧
    ((∀ dDb dLive, row.run_data = some dDb → a.run_data = some dLive →
        (a.from_database_row row).run_data = some (merge_dictionaries dDb dLive) ∧
        ∀ k, mlookup (merge_dictionaries dDb dLive) k
          = (mlookup dLive k).orElse (fun _ => mlookup dDb k)) ∧
      (a.run_data = none →
        (a.from_database_row row).run_data = row.run_data)) ∧
    ((∀ dDb dLive, row.user_data = some dDb → a.user_data = some dLive →
        (a.from_database_row row).user_data = some (merge_dictionaries dDb dLive) ∧
        ∀ k, mlookup (merge_dictionaries dDb dLive) k
          = (mlookup dLive k).orElse (fun _ => mlookup dDb k)) ∧
      (a.user_data = none →
        (a.from_database_row row).user_data = row.user_data)) ∧
    ((∀ dDb dLive, row.task_data = some dDb → a.task_data = some dLive →
        (a.from_database_row row).task_data = some (merge_dictionaries dDb dLive) ∧
        ∀ k, mlookup (merge_dictionaries dDb dLive) k
          = (mlookup dLive k).orElse (fun _ => mlookup dDb k)) ∧
      (a.task_data = none →
        (a.from_database_row row).task_data = row.task_data)) := by
  refine ⟨⟨?_, ?_⟩, ⟨?_, ?_⟩, ⟨?_, ?_⟩, ⟨?_, ?_⟩⟩
  · intro dDb dLive hdb hlive
    exact ⟨by rw [fdb_assistant_data, hdb, hlive, dictFill_some_some],
      fun k => mlookup_merge dDb dLive k⟩
  · intro hlive
    rw [fdb_assistant_data, hlive, dictFill_none]
  · intro dDb dLive hdb hlive
    exact ⟨by rw [fdb_run_data, hdb, hlive, dictFill_some_some],
      fun k => mlookup_merge dDb dLive k⟩
  · intro hlive
    rw [fdb_run_data, hlive, dictFill_none]
  · intro dDb dLive hdb hlive
    exact ⟨by rw [fdb_user_data, hdb, hlive, dictFill_some_some],
      fun k => mlookup_merge dDb dLive k⟩
  · intro hlive
    rw [fdb_user_data, hlive, dictFill_none]
  · intro dDb dLive hdb hlive
    exact ⟨by rw [fdb_task_data, hdb, hlive, dictFill_some_some],
      fun k => mlookup_merge dDb dLive k⟩
  · intro hlive
    rw [fdb_task_data, hlive, dictFill_none]

/-- C6 witness: the claim's concrete example — live `run_data` `x = 1`
merged with persisted `run_data` `x = 2, y = 3` yields `x = 1, y = 3`. -/
theorem claim_C6_witness :
    (aC6.from_database_row rowC6).run_data
      = some [("x", MVal.mint 1), ("y", MVal.mint 3)] := by
  have h := ((claim_C6_theorem aC6 rowC6).2.1.1
    [("x", MVal.mint 2), ("y", MVal.mint 3)] [("x", MVal.mint 1)] rfl rfl).1
  rw [h]
  rfl

/-! ## Claim C10 -/

/-- C10 (confirmed): `from_database_row` never overwrites a live identity
field that is already set: each of `name`, `run_id`, `run_name`, and
`user_id` ends up as `oFill live row` — the live value whenever it is
`some`, and the row's value only when the live value is `none`. -/
theorem claim_C10_theorem (a : Assistant) (row : AssistantRun) :
    (a.from_database_row row).name = oFill a.name row.name ∧
    (a.from_database_row row).run_id = oFill a.run_id row.run_id ∧
    (a.from_database_row row).run_name = oFill a.run_name row.run_name ∧
    (a.from_database_row row).user_id = oFill a.user_id row.user_id :=
  ⟨fdb_name a row, fdb_run_id a row, fdb_run_name a row, fdb_user_id a row⟩

/-! ## Lemmas about the task loop -/

theorem string_join_nil : String.join ([] : List String) = "" := rfl

theorem string_join_singleton (s : String) : String.join [s] = s := by
  obtain ⟨data⟩ := s
  rfl

theorem runLoop_inputs_cons (message : Option PyVal) (stream : Bool)
    (t : Task) (ts : List Task) (prev : Option (Task × Option PyVal)) :
    (runLoop message stream (t :: ts) prev).inputs
      = nextMessage stream prev message ::
        (runLoop message stream ts
          (some (t, nextMessage stream prev message))).inputs := rfl

theorem runLoop_inputs_head (message : Option PyVal) (stream : Bool)
    (ts : List Task) (prev : Option (Task × Option PyVal)) :
    (runLoop message stream ts prev).inputs.get? 0
      = (ts.get? 0).map (fun _ => nextMessage stream prev message) := by
  cases ts <;> rfl

theorem runLoop_inputs_succ (message : Option PyVal) (stream : Bool) :
    ∀ (ts : List Task) (prev : Option (Task × Option PyVal)) (i : Nat)
      (t : Task) (mi : Option PyVal),
      ts.get? i = some t →
      (runLoop message stream ts prev).inputs.get? i = some mi →
      (runLoop message stream ts prev).inputs.get? (i + 1)
        = (ts.get? (i + 1)).map
            (fun _ => nextMessage stream (some (t, mi)) message) := by
  intro ts
  induction ts with
  | nil => intro prev i t mi h _; simp at h
  | cons hd tl ih =>
    intro prev i t mi hts hinp
    cases i with
    | zero =>
      rw [List.get?_cons_zero] at hts
      obtain rfl : hd = t := by simpa using hts
      rw [runLoop_inputs_cons, List.get?_cons_zero] at hinp
      obtain rfl : nextMessage stream prev message = mi := by simpa using hinp
      rw [runLoop_inputs_cons, List.get?_cons_succ, List.get?_cons_succ]
      exact runLoop_inputs_head message stream tl
        (some (hd, nextMessage stream prev message))
    | succ n =>
      rw [List.get?_cons_succ] at hts
      rw [runLoop_inputs_cons, List.get?_cons_succ] at hinp
      rw [runLoop_inputs_cons, List.get?_cons_succ, List.get?_cons_succ]
      exact ih (some (hd, nextMessage stream prev message)) n t mi hts hinp

theorem assistant_run_obs (a : Assistant) (message : Option PyVal) (stream : Bool)
    (ts : List Task) (hts : a.tasks = some ts) (hne : ts ≠ []) :
    (a.assistant_run message stream).chunks
        = (runLoop message stream ts none).chunks
            ++ (if stream then []
                else [(runLoop message stream ts none).run_output]) ∧
    (a.assistant_run message stream).aggregate
        = (runLoop message stream ts none).run_output ∧
    (a.assistant_run message stream).inputs
        = (runLoop message stream ts none).inputs := by
  have h1 : (a.read_from_storage).2.1.tasks = some ts := by
    rw [read_from_storage_tasks, hts]
  cases ts with
  | nil => exact absurd rfl hne
  | cons hd tl =>
    unfold Assistant.assistant_run
    simp [h1]

/-! ## Claim C2 -/

/-- C2 (confirmed): along a chained run, whenever task `i` produced a
structured (pydantic-model) output, the message handed to task `i+1` is
the model's canonical text serialization
(`model_dump_json(exclude_none=True, indent=2)`), never the object
itself; whenever the previous task produced no output — in particular for
the first task, which has no previous task — the original caller-supplied
message is handed over instead. -/
theorem claim_C2_theorem (a : Assistant) (message : Option PyVal)
    (stream : Bool) (ts : List Task) (hts : a.tasks = some ts)
    (hne : ts ≠ []) :
    (a.assistant_run message stream).inputs.get? 0 = some message ∧
    (∀ i t mi pm, ts.get? i = some t →
      (a.assistant_run message stream).inputs.get? i = some mi →
      t.outputAfter (stream && t.streamable) mi = some (.tmodel pm) →
      (a.assistant_run message stream).inputs.get? (i + 1)
        = (ts.get? (i + 1)).map
            (fun _ => some (.pstr (model_dump_json pm)))) ∧
    (∀ i t mi, ts.get? i = some t →
      (a.assistant_run message stream).inputs.get? i = some mi →
      t.outputAfter (stream && t.streamable) mi = none →
      (a.assistant_run message stream).inputs.get? (i + 1)
        = (ts.get? (i + 1)).map (fun _ => message)) := by
  obtain ⟨-, -, hi⟩ := assistant_run_obs a message stream ts hts hne
  rw [hi]
  refine ⟨?_, ?_, ?_⟩
  · rw [runLoop_inputs_head]
    cases ts with
    | nil => exact absurd rfl hne
    | cons hd tl => rfl
  · intro i t mi pm h1 h2 h3
    rw [runLoop_inputs_succ message stream ts none i t mi h1 h2]
    simp [nextMessage, h3]
  · intro i t mi h1 h2 h3
    rw [runLoop_inputs_succ message stream ts none i t mi h1 h2]
    simp [nextMessage, h3]

/-- C2 witness: in the concrete two-task run whose first task outputs a
pydantic instance, the second task's input is the instance's canonical
JSON text handed as a string message. -/
theorem claim_C2_witness :
    (aC2.assistant_run none true).inputs.get? 1
      = some (some (.pstr "\x7b\x22x\x22: 7\x7d")) := by
  have h := claim_C2_theorem aC2 none true [taskC2a, taskC2b] rfl
    (List.cons_ne_nil _ _)
  have h1 := h.2.1 0 taskC2a none { dump := "\x7b\x22x\x22: 7\x7d" } rfl h.1 rfl
  simpa [model_dump_json] using h1

/-! ## Claim C4 -/

/-- C4 (confirmed): for a single-task run, when the task's streamed
chunks concatenate to its normalized batch response (the same
language-model behavior in both modes), the concatenation of everything
`_run` yields in streaming mode equals the single aggregated string
`_run` yields in non-streaming mode; non-streaming `_run` yields exactly
one chunk, the aggregate. -/
theorem claim_C4_theorem (a : Assistant) (t : Task) (message : Option PyVal)
    (hts : a.tasks = some [t])
    (hbeh : t.streamable = true →
      String.join (t.runChunks message) = normalizeResp (t.runBatch message)) :
    (a.assistant_run message false).chunks
      = [(a.assistant_run message false).aggregate] ∧
    String.join ((a.assistant_run message true).chunks)
      = (a.assistant_run message false).aggregate := by
  obtain ⟨hcF, haF, -⟩ :=
    assistant_run_obs a message false [t] hts (List.cons_ne_nil _ _)
  obtain ⟨hcT, -, -⟩ :=
    assistant_run_obs a message true [t] hts (List.cons_ne_nil _ _)
  rw [hcF, haF, hcT]
  have hloopF : (runLoop message false [t] none).chunks = [] ∧
      (runLoop message false [t] none).run_output
        = (if t.show_output then normalizeResp (t.runBatch message) else "") := by
    constructor
    · simp [runLoop, taskStep, nextMessage]
    · cases hr : t.runBatch message with
      | none => simp [runLoop, taskStep, nextMessage, hr, normalizeResp]
      | some v =>
        cases htv : truthyTaskValue v <;> cases hso : t.show_output <;>
          simp [runLoop, taskStep, nextMessage, hr, htv, hso, normalizeResp]
  constructor
  · rw [hloopF.1]
    simp
  · rw [hloopF.2]
    cases hstr : t.streamable with
    | true =>
      have hb := hbeh hstr
      cases hso : t.show_output with
      | true => simpa [runLoop, taskStep, nextMessage, hstr, hso] using hb
      | false =>
        simp [runLoop, taskStep, nextMessage, hstr, hso, string_join_nil]
    | false =>
      cases hr : t.runBatch message with
      | none =>
        simp [runLoop, taskStep, nextMessage, hstr, hr, normalizeResp,
          string_join_nil]
      | some v =>
        cases htv : truthyTaskValue v <;> cases hso : t.show_output <;>
          simp [runLoop, taskStep, nextMessage, hstr, hr, htv, hso,
            normalizeResp, string_join_nil, string_join_singleton]

/-- C4 witness: the concrete single-task run streaming
`"Hello" / " " / "world"` concatenates to the batch aggregate
`"Hello world"`. -/
theorem claim_C4_witness :
    (aC4.assistant_run none false).chunks
      = [(aC4.assistant_run none false).aggregate] ∧
    String.join ((aC4.assistant_run none true).chunks)
      = (aC4.assistant_run none false).aggregate :=
  claim_C4_theorem aC4 taskC4 none rfl (fun _ => by decide)

/-! ## Claim C3 -/

theorem assistant_run_state_output (a : Assistant) (message : Option PyVal)
    (stream : Bool) :
    (a.assistant_run message stream).state.output
      = some (.otext (a.assistant_run message stream).aggregate) := rfl

/-- C3 (confirmed): with an output schema configured and parsing enabled,
`run()` drives the pipeline in non-streaming mode regardless of the
requested mode; for a primitive container marker the aggregate is parsed
as generic JSON, for an object schema the raw text is validated directly
and re-validated once after stripping the leading/trailing
triple-backtick JSON fence; a successful structured result is returned
and replaces the stored output, and when every attempt fails the raw
aggregate text is returned unchanged (no failure reaches the caller). -/
theorem claim_C3_theorem :
    (∀ (a : Assistant) (message : Option PyVal) (stream : Bool)
        (validate : String → Option Jv),
      a.output_model = some (.schema validate) → a.parse_output = true →
      (a.run_impl message stream = a.run_impl message false) ∧
      (∀ v, validate ((a.assistant_run message false).aggregate) = some v →
        (a.run_impl message stream).1 = .rstructured v ∧
        (a.run_impl message stream).2.output = some (.omodel v)) ∧
      (validate ((a.assistant_run message false).aggregate) = none →
        pyStartsWith ((a.assistant_run message false).aggregate) "```json" = true →
        ∀ v, validate (pyReplace (pyReplace
            ((a.assistant_run message false).aggregate) "```json\n" "")
            "\n```" "") = some v →
        (a.run_impl message stream).1 = .rstructured v ∧
        (a.run_impl message stream).2.output = some (.omodel v)) ∧
      (validate ((a.assistant_run message false).aggregate) = none →
        (pyStartsWith ((a.assistant_run message false).aggregate) "```json" = false ∨
         validate (pyReplace (pyReplace
            ((a.assistant_run message false).aggregate) "```json\n" "")
            "\n```" "") = none) →
        (a.run_impl message stream).1
          = .rtext ((a.assistant_run message false).aggregate))) ∧
    (∀ (a : Assistant) (message : Option PyVal) (stream : Bool),
      a.output_model = some .primitive → a.parse_output = true →
      (a.run_impl message stream = a.run_impl message false) ∧
      (json_loads ((a.assistant_run message false).aggregate) = none →
        (a.run_impl message stream).1
          = .rtext ((a.assistant_run message false).aggregate)) ∧
      (∀ j, json_loads ((a.assistant_run message false).aggregate) = some j →
        jvTruthy j = true →
        (a.run_impl message stream).1 = .rstructured j)) := by
  constructor
  · intro a message stream validate hom hpo
    refine ⟨?_, ?_, ?_, ?_⟩
    · unfold Assistant.run_impl
      rw [hom]
      simp [hpo]
    · intro v hv
      unfold Assistant.run_impl
      rw [hom]
      simp [hpo, hv, truthyOut, outToResult, applyStructured]
    · intro hv hs v hv2
      unfold Assistant.run_impl
      rw [hom]
      simp [hpo, hv, hs, hv2, truthyOut, outToResult, applyStructured]
    · intro hv hfail
      unfold Assistant.run_impl
      rw [hom]
      rcases hfail with hs | hv2
      · simp [hpo, hv, hs, assistant_run_state_output, outToResult, ite_self, applyStructured]
      · by_cases hs : pyStartsWith ((a.assistant_run message false).aggregate)
            "```json" = true
        · simp [hpo, hv, hs, hv2, assistant_run_state_output, outToResult,
            ite_self, applyStructured]
        · simp [hpo, hv, hs, assistant_run_state_output, outToResult, ite_self, applyStructured]
  · intro a message stream hom hpo
    refine ⟨?_, ?_, ?_⟩
    · unfold Assistant.run_impl
      rw [hom]
      simp [hpo]
    · intro hj
      unfold Assistant.run_impl
      rw [hom]
      simp [hpo, hj, assistant_run_state_output, outToResult, ite_self, applyStructured]
    · intro j hj htr
      unfold Assistant.run_impl
      rw [hom]
      simp [hpo, hj, truthyOut, htr, outToResult, applyStructured]

/-- C3 witness: the claim's concrete example — raw text
` ```json\n{"a":1}\n``` ` under the object schema with integer field `a`
yields the parsed object with `a = 1` (via the fence-stripping retry). -/
theorem claim_C3_witness :
    (aC3.run_impl none true).1 = .rstructured (.jobj [("a", .jint 1)]) :=
  ((claim_C3_theorem.1 aC3 none true validateA rfl rfl).2.2.1
    rfl rfl (.jobj [("a", .jint 1)]) rfl).1

/-! ## Claim C7 -/

/-- C7 (corrected): a configured non-empty task list makes `chat_raw`
raise at the call, in both modes, with the assistant state untouched and
no side effect.  A missing language model makes `chat_raw` raise at the
call only in non-streaming mode; in streaming mode `chat_raw` returns the
un-iterated generator unchanged — without reading storage, mutating
memory, or contacting the model — and the missing-model error is raised
only when the generator body runs at the first pull. -/
theorem claim_C7_theorem :
    (∀ (a : Assistant) (messages : List Message) (um : Option String)
        (stream : Bool) (ts : List Task), a.tasks = some ts → ts ≠ [] →
      a.chat_raw messages um stream
        = .error ("chat_raw does not support tasks", a)) ∧
    (∀ (a : Assistant) (messages : List Message) (um : Option String),
      (a.tasks = none ∨ a.tasks = some []) → a.llm = none →
      a.chat_raw messages um false = .error ("LLM not set", a)) ∧
    (∀ (a : Assistant) (messages : List Message) (um : Option String),
      (a.tasks = none ∨ a.tasks = some []) →
      a.chat_raw messages um true = .ok (.generatorValue, a, [])) ∧
    (∀ (a : Assistant) (messages : List Message) (um : Option String)
        (stream : Bool), a.llm = none →
      a.chat_raw_body messages um stream = .error ("LLM not set", a)) := by
  refine ⟨?_, ?_, ?_, ?_⟩
  · intro a messages um stream ts hts hne
    unfold Assistant.chat_raw
    rw [hts]
    cases ts with
    | nil => exact absurd rfl hne
    | cons hd tl => simp
  · intro a messages um htasks hllm
    have hbody : a.chat_raw_body messages um false = .error ("LLM not set", a) := by
      unfold Assistant.chat_raw_body
      rw [hllm]
    unfold Assistant.chat_raw
    rcases htasks with h | h <;> rw [h] <;> simp [hbody]
  · intro a messages um htasks
    unfold Assistant.chat_raw
    rcases htasks with h | h <;> rw [h] <;> simp
  · intro a messages um stream hllm
    unfold Assistant.chat_raw_body
    rw [hllm]

/-- C7 witness: the amended statement at concrete inputs — with no model
configured, the non-streaming call raises `LLM not set` at the call with
the state untouched, and the streaming generator body raises the same
error at its first pull. -/
theorem claim_C7_witness :
    aC7.chat_raw [] none false = .error ("LLM not set", aC7) ∧
    aC7.chat_raw_body [] none true = .error ("LLM not set", aC7) :=
  ⟨claim_C7_theorem.2.1 aC7 [] none (Or.inl rfl) rfl,
   claim_C7_theorem.2.2.2 aC7 [] none true rfl⟩

/-- C7 counterexample: the claim as stated is false in streaming mode —
`chat_raw` invoked without a language model and `stream=True` does not
raise at the call: it returns the generator value successfully. -/
theorem claim_C7_counterexample :
    aC7.chat_raw [] none true = .ok (.generatorValue, aC7, []) := rfl

/-! ## Claim C8 -/

/-- C8 (confirmed): `generate_name` accepts a model response within the
sanity-check threshold of 15 words and returns it with all double-quote
characters removed and surrounding whitespace stripped; a response
exceeding the threshold is not returned — the call recurses into another
attempt instead. -/
theorem claim_C8_theorem (a : Assistant) (l : LLM) (h : a.llm = some l)
    (fuel : Nat) :
    ((pySplit (l.response (generate_name_messages a))).length ≤ 15 →
      a.generate_name (fuel + 1)
        = .ok (some (pyStrip (pyReplace
            (l.response (generate_name_messages a)) "\x22" "")))) ∧
    (15 < (pySplit (l.response (generate_name_messages a))).length →
      a.generate_name (fuel + 1)
        = .ok (generate_name_core l (generate_name_messages a) fuel)) := by
  constructor
  · intro hle
    unfold Assistant.generate_name
    rw [h]
    simp only [generate_name_core]
    rw [if_neg (Nat.not_lt.mpr hle)]
  · intro hlt
    unfold Assistant.generate_name
    rw [h]
    simp only [generate_name_core]
    rw [if_pos hlt]

/-- C8 witness: the claim's concrete example — the accepted three-word
response `"Tomorrow's Sync Plan"` (quoted by the model) is returned with
the double quotes stripped. -/
theorem claim_C8_witness :
    aC8.generate_name 1 = .ok (some "Tomorrow\x27s Sync Plan") := by
  have h := (claim_C8_theorem aC8 lC8 rfl 0).1 (by decide)
  rw [h]
  rfl

/-! ## Lemmas about `create_run` -/

theorem add_introduction_storage (a : Assistant) (intro : String) :
    (a.add_introduction intro).storage = a.storage := by
  unfold Assistant.add_introduction
  split <;> rfl

theorem add_introduction_run_id (a : Assistant) (intro : String) :
    (a.add_introduction intro).run_id = a.run_id := by
  unfold Assistant.add_introduction
  split <;> rfl

theorem add_introduction_db_row (a : Assistant) (intro : String) :
    (a.add_introduction intro).db_row = a.db_row := by
  unfold Assistant.add_introduction
  split <;> rfl

theorem add_introduction_empty (a : Assistant) (intro : String)
    (h : a.memory.chat_history = []) :
    a.add_introduction intro =
      { a with memory :=
        { chat_history := [{ role := "assistant", content := intro }],
          llm_messages := a.memory.llm_messages } } := by
  unfold Assistant.add_introduction
  rw [if_pos (by rw [h]; rfl)]
  simp [AssistantMemory.add_chat_message, h]

theorem to_database_row_run_id (a : Assistant) :
    (a.to_database_row).run_id = a.run_id := rfl

theorem to_database_row_memory (a : Assistant) :
    (a.to_database_row).memory = some a.memory := rfl

theorem write_to_storage_run_id (a : Assistant) :
    (a.write_to_storage).1.run_id = a.run_id := by
  unfold Assistant.write_to_storage
  cases h : a.storage <;> rfl

theorem create_run_cached (a : Assistant) (row : AssistantRun)
    (h : a.db_row = some row) : a.create_run = .ok (row.run_id, a, []) := by
  unfold Assistant.create_run
  rw [h]

theorem create_run_no_storage (a : Assistant) (hdb : a.db_row = none)
    (hst : a.storage = none) : a.create_run = .ok (a.run_id, a, []) := by
  unfold Assistant.create_run
  rw [hdb, hst]

theorem create_run_uncached (a : Assistant) (st : AssistantStorage)
    (hdb : a.db_row = none) (hst : a.storage = some st) :
    a.create_run
      = create_run_go (a.read_from_storage).2.1 (a.read_from_storage).2.2 := by
  unfold Assistant.create_run
  rw [hdb, hst]

theorem create_run_go_cached (a1 : Assistant) (log1 : List Op)
    (row : AssistantRun) (h : a1.db_row = some row) :
    create_run_go a1 log1 = .ok (a1.run_id, a1, log1) := by
  unfold create_run_go
  rw [h]

theorem create_run_go_fresh_no_intro (a1 : Assistant) (log1 : List Op)
    (hdb : a1.db_row = none) (hi : a1.introduction = none) :
    create_run_go a1 log1 = create_run_write a1 log1 := by
  unfold create_run_go
  rw [hdb, hi]

theorem create_run_go_fresh_intro (a1 : Assistant) (log1 : List Op)
    (intro : String) (hdb : a1.db_row = none)
    (hi : a1.introduction = some intro) (hne : intro ≠ "") :
    create_run_go a1 log1
      = create_run_write (a1.add_introduction intro) log1 := by
  unfold create_run_go
  simp only [hdb, hi]
  rw [if_pos hne]

theorem create_run_go_fresh_falsy_intro (a1 : Assistant) (log1 : List Op)
    (intro : String) (hdb : a1.db_row = none)
    (hi : a1.introduction = some intro) (hne : ¬intro ≠ "") :
    create_run_go a1 log1 = create_run_write a1 log1 := by
  unfold create_run_go
  simp only [hdb, hi]
  rw [if_neg hne]

theorem create_run_write_ok (a2 : Assistant) (st : AssistantStorage)
    (rid : String) (log1 : List Op) (hst : a2.storage = some st)
    (hrid : a2.run_id = some rid) (hupsert : ∀ r, st.upsert r = some r) :
    create_run_write a2 log1
      = .ok (some rid,
          ({ a2 with db_row := some a2.to_database_row }).from_database_row
            a2.to_database_row,
          log1 ++ [Op.opUpsert a2.to_database_row]) := by
  unfold create_run_write
  rw [write_to_storage_some a2 st hst, hupsert]
  simp [fdb_run_id, oFill, hrid]

theorem create_run_write_fail (a2 : Assistant) (st : AssistantStorage)
    (log1 : List Op) (hst : a2.storage = some st)
    (hfail : ∀ r, st.upsert r = none) :
    create_run_write a2 log1
      = .error ("Failed to create new assistant run in storage",
          { a2 with db_row := none }) := by
  unfold create_run_write
  rw [write_to_storage_some a2 st hst, hfail]

theorem fdb_selfrow_db_row (a2 : Assistant) :
    (({ a2 with db_row := some a2.to_database_row }).from_database_row
      a2.to_database_row).db_row = some a2.to_database_row := by
  rw [fdb_db_row]

theorem fdb_selfrow_memory (a2 : Assistant) :
    (({ a2 with db_row := some a2.to_database_row }).from_database_row
      a2.to_database_row).memory = a2.memory := by
  rw [fdb_memory]
  rfl

/-! ## Claim C5 -/

/-- C5 (confirmed): with a fresh assistant (nothing cached in `db_row`)
against a storage adapter honoring its contract (reads are keyed by run
id, upserts echo the written record), two successive `create_run` calls
return the same run identifier and the second call, finding the record
cached in `db_row`, performs no storage access and leaves the state
unchanged; when the run is new, the configured introduction message ends
up in the chat history exactly once across both calls; and when the
creation write fails (storage returns no record) `create_run` raises. -/
theorem claim_C5_theorem :
    (∀ (a : Assistant) (st : AssistantStorage) (rid : String),
      a.storage = some st → a.run_id = some rid → a.db_row = none →
      (∀ r, st.upsert r = some r) →
      (∀ rid' row, st.read rid' = some row → row.run_id = some rid') →
      ∃ a1 log1, a.create_run = .ok (some rid, a1, log1) ∧
        a1.create_run = .ok (some rid, a1, [])) ∧
    (∀ (a : Assistant) (st : AssistantStorage) (rid intro : String),
      a.storage = some st → a.run_id = some rid → a.db_row = none →
      (∀ r, st.upsert r = some r) → st.read rid = none →
      a.memory.chat_history = [] → a.introduction = some intro → intro ≠ "" →
      ∃ a1 log1, a.create_run = .ok (some rid, a1, log1) ∧
        a1.memory.chat_history = [{ role := "assistant", content := intro }] ∧
        a1.create_run = .ok (some rid, a1, [])) ∧
    (∀ (a : Assistant) (st : AssistantStorage) (rid : String),
      a.storage = some st → a.run_id = some rid → a.db_row = none →
      (∀ r, st.upsert r = none) → st.read rid = none →
      ∃ s, a.create_run
        = .error ("Failed to create new assistant run in storage", s)) := by
  refine ⟨?_, ?_, ?_⟩
  · intro a st rid hst hrid hdb hupsert hread
    rw [create_run_uncached a st hdb hst]
    rcases Option.eq_none_or_eq_some (st.read rid) with hdbr | ⟨row, hdbr⟩
    · rw [read_from_storage_no_row a st rid hst hrid hdbr]
      dsimp only
      generalize hB : ({ a with db_row := none } : Assistant) = b
      have hdbB : b.db_row = none := by rw [← hB]
      have hstB : b.storage = some st := by rw [← hB]; exact hst
      have hridB : b.run_id = some rid := by rw [← hB]; exact hrid
      rcases Option.eq_none_or_eq_some b.introduction with hintro | ⟨intro, hintro⟩
      · rw [create_run_go_fresh_no_intro b _ hdbB hintro,
          create_run_write_ok b st rid _ hstB hridB hupsert]
        refine ⟨_, _, rfl, ?_⟩
        rw [create_run_cached _ _ (fdb_selfrow_db_row b), to_database_row_run_id,
          hridB]
      · by_cases hne : intro ≠ ""
        · have hstI : (b.add_introduction intro).storage = some st := by
            rw [add_introduction_storage]; exact hstB
          have hridI : (b.add_introduction intro).run_id = some rid := by
            rw [add_introduction_run_id]; exact hridB
          rw [create_run_go_fresh_intro b _ intro hdbB hintro hne,
            create_run_write_ok _ st rid _ hstI hridI hupsert]
          refine ⟨_, _, rfl, ?_⟩
          rw [create_run_cached _ _ (fdb_selfrow_db_row _),
            to_database_row_run_id, hridI]
        · rw [create_run_go_fresh_falsy_intro b _ intro hdbB hintro hne,
            create_run_write_ok b st rid _ hstB hridB hupsert]
          refine ⟨_, _, rfl, ?_⟩
          rw [create_run_cached _ _ (fdb_selfrow_db_row b),
            to_database_row_run_id, hridB]
    · have hrowid : row.run_id = some rid := hread rid row hdbr
      rcases Option.eq_none_or_eq_some a.user_id with huid | ⟨uid, huid⟩
      · rw [read_from_storage_found_no_user a st rid row hst hrid huid hdbr]
        dsimp only
        generalize hB : ({ a with db_row := some row } : Assistant) = b
        have hdbf : (b.from_database_row row).db_row = some row := by
          rw [fdb_db_row, ← hB]
        have h1 : (b.from_database_row row).run_id = some rid := by
          rw [fdb_run_id]
          have h2 : b.run_id = some rid := by rw [← hB]; exact hrid
          rw [h2]
          rfl
        rw [create_run_go_cached _ _ row hdbf, h1]
        refine ⟨_, _, rfl, ?_⟩
        rw [create_run_cached _ row hdbf, hrowid]
      · by_cases hx : row.user_id = some uid
        · rw [read_from_storage_found_user_ok a st rid uid row hst hrid huid
            hdbr hx]
          dsimp only
          generalize hB : ({ a with db_row := some row } : Assistant) = b
          have hdbf : (b.from_database_row row).db_row = some row := by
            rw [fdb_db_row, ← hB]
          have h1 : (b.from_database_row row).run_id = some rid := by
            rw [fdb_run_id]
            have h2 : b.run_id = some rid := by rw [← hB]; exact hrid
            rw [h2]
            rfl
          rw [create_run_go_cached _ _ row hdbf, h1]
          refine ⟨_, _, rfl, ?_⟩
          rw [create_run_cached _ row hdbf, hrowid]
        · rw [read_from_storage_mismatch a st rid uid row hst hrid huid hdbr hx]
          dsimp only
          generalize hB : ({ a with db_row := some row } : Assistant) = b
          have hdbB : b.db_row = some row := by rw [← hB]
          have h1 : b.run_id = some rid := by rw [← hB]; exact hrid
          rw [create_run_go_cached b _ row hdbB, h1]
          refine ⟨_, _, rfl, ?_⟩
          rw [create_run_cached _ row hdbB, hrowid]
  · intro a st rid intro hst hrid hdb hupsert hdbr hhist hintro hne
    rw [create_run_uncached a st hdb hst,
      read_from_storage_no_row a st rid hst hrid hdbr]
    dsimp only
    generalize hB : ({ a with db_row := none } : Assistant) = b
    have hdbB : b.db_row = none := by rw [← hB]
    have hstB : b.storage = some st := by rw [← hB]; exact hst
    have hridB : b.run_id = some rid := by rw [← hB]; exact hrid
    have hintroB : b.introduction = some intro := by rw [← hB]; exact hintro
    have hhistB : b.memory.chat_history = [] := by rw [← hB]; exact hhist
    rw [create_run_go_fresh_intro b _ intro hdbB hintroB hne,
      add_introduction_empty b intro hhistB]
    have hstB2 : ({ b with memory :=
        { chat_history := [{ role := "assistant", content := intro }],
          llm_messages := b.memory.llm_messages } } : Assistant).storage
        = some st := hstB
    have hridB2 : ({ b with memory :=
        { chat_history := [{ role := "assistant", content := intro }],
          llm_messages := b.memory.llm_messages } } : Assistant).run_id
        = some rid := hridB
    rw [create_run_write_ok _ st rid _ hstB2 hridB2 hupsert]
    refine ⟨_, _, rfl, ?_, ?_⟩
    · rw [fdb_selfrow_memory]
    · rw [create_run_cached _ _ (fdb_selfrow_db_row _), to_database_row_run_id,
        hridB2]
  · intro a st rid hst hrid hdb hfail hdbr
    rw [create_run_uncached a st hdb hst,
      read_from_storage_no_row a st rid hst hrid hdbr]
    dsimp only
    generalize hB : ({ a with db_row := none } : Assistant) = b
    have hdbB : b.db_row = none := by rw [← hB]
    have hstB : b.storage = some st := by rw [← hB]; exact hst
    rcases Option.eq_none_or_eq_some b.introduction with hintro | ⟨intro, hintro⟩
    · rw [create_run_go_fresh_no_intro b _ hdbB hintro,
        create_run_write_fail b st _ hstB hfail]
      exact ⟨_, rfl⟩
    · by_cases hne : intro ≠ ""
      · rw [create_run_go_fresh_intro b _ intro hdbB hintro hne,
          create_run_write_fail _ st _
            (by rw [add_introduction_storage]; exact hstB) hfail]
        exact ⟨_, rfl⟩
      · rw [create_run_go_fresh_falsy_intro b _ intro hdbB hintro hne,
          create_run_write_fail b st _ hstB hfail]
        exact ⟨_, rfl⟩

/-! ## Run-id preservation lemmas (for claim C9) -/

theorem assistant_run_run_id (a : Assistant) (message : Option PyVal)
    (stream : Bool) :
    (a.assistant_run message stream).state.run_id = a.run_id := by
  have h : (a.assistant_run message stream).state.run_id
      = (((a.read_from_storage).2.1).write_to_storage).1.run_id := rfl
  rw [h, write_to_storage_run_id, read_from_storage_run_id]

theorem run_noparse_run_id (a : Assistant) (message : Option PyVal)
    (stream : Bool) :
    (a.run_noparse message stream).2.run_id = a.run_id := by
  unfold Assistant.run_noparse
  by_cases h : (stream && a.streamable) = true
  · rw [if_pos h]
    exact assistant_run_run_id a message true
  · rw [if_neg h]
    exact assistant_run_run_id a message false

theorem applyStructured_run_id (b : Assistant) (E : Option OutVal) :
    (applyStructured b E).run_id = b.run_id := by
  cases E <;> rfl

theorem run_impl_run_id (a : Assistant) (message : Option PyVal)
    (stream : Bool) :
    (a.run_impl message stream).2.run_id = a.run_id := by
  unfold Assistant.run_impl
  cases hom : a.output_model with
  | none => exact run_noparse_run_id a message stream
  | some om =>
    try dsimp only
    by_cases hpo : a.parse_output = true
    · rw [hpo, if_pos rfl]
      try dsimp only
      rw [applyStructured_run_id]
      exact assistant_run_run_id a message false
    · have hpo' : a.parse_output = false := by
        revert hpo
        cases a.parse_output <;> simp
      rw [hpo', if_neg Bool.false_ne_true]
      exact run_noparse_run_id a message stream

theorem create_run_write_run_id (a2 : Assistant) (log1 : List Op)
    (rid : String) (hrid : a2.run_id = some rid) :
    (exceptState (create_run_write a2 log1)).run_id = some rid := by
  unfold create_run_write
  try dsimp only
  cases hw : (a2.write_to_storage).1.db_row with
  | none =>
    try rw [hw]
    simp only [exceptState]
    rw [write_to_storage_run_id, hrid]
  | some row =>
    try rw [hw]
    simp only [exceptState]
    rw [fdb_run_id, write_to_storage_run_id, hrid]
    rfl

theorem create_run_go_run_id (a1 : Assistant) (log1 : List Op) (rid : String)
    (hrid : a1.run_id = some rid) :
    (exceptState (create_run_go a1 log1)).run_id = some rid := by
  cases hdb : a1.db_row with
  | some row =>
    rw [create_run_go_cached a1 log1 row hdb]
    simp [exceptState, hrid]
  | none =>
    rcases Option.eq_none_or_eq_some a1.introduction with hintro | ⟨intro, hintro⟩
    · rw [create_run_go_fresh_no_intro a1 log1 hdb hintro]
      exact create_run_write_run_id a1 log1 rid hrid
    · by_cases hne : intro ≠ ""
      · rw [create_run_go_fresh_intro a1 log1 intro hdb hintro hne]
        exact create_run_write_run_id _ log1 rid
          (by rw [add_introduction_run_id]; exact hrid)
      · rw [create_run_go_fresh_falsy_intro a1 log1 intro hdb hintro hne]
        exact create_run_write_run_id a1 log1 rid hrid

theorem create_run_run_id (a : Assistant) (rid : String)
    (hrid : a.run_id = some rid) :
    (exceptState a.create_run).run_id = some rid := by
  cases hdb : a.db_row with
  | some row =>
    rw [create_run_cached a row hdb]
    simp [exceptState, hrid]
  | none =>
    cases hst : a.storage with
    | none =>
      rw [create_run_no_storage a hdb hst]
      simp [exceptState, hrid]
    | some st =>
      rw [create_run_uncached a st hdb hst]
      exact create_run_go_run_id _ _ rid
        (by rw [read_from_storage_run_id]; exact hrid)

theorem chat_raw_body_run_id (a : Assistant) (messages : List Message)
    (um : Option String) (stream : Bool) (rid : String)
    (hrid : a.run_id = some rid) :
    (exceptState (a.chat_raw_body messages um stream)).run_id = some rid := by
  have hread : (a.read_from_storage).2.1.run_id = some rid := by
    rw [read_from_storage_run_id]; exact hrid
  unfold Assistant.chat_raw_body
  cases hllm : a.llm with
  | none => simp [exceptState, hrid]
  | some l =>
    try dsimp only
    cases hlast : messages.getLast? with
    | none =>
      cases hum : um with
      | none =>
        try rw [hum]
        try rw [hlast]
        try dsimp only
        simp only [exceptState]
        exact hread
      | some s =>
        try rw [hum]
        try rw [hlast]
        try dsimp only
        by_cases hne : s ≠ ""
        · rw [if_pos hne]
          try rw [hlast]
          try dsimp only
          simp only [exceptState]
          exact hread
        · rw [if_neg hne]
          try rw [hlast]
          try dsimp only
          simp only [exceptState]
          exact hread
    | some lastMsg =>
      cases hum : um with
      | none =>
        try rw [hum]
        try rw [hlast]
        try dsimp only
        simp only [exceptState]
        rw [write_to_storage_run_id]
        exact hread
      | some s =>
        try rw [hum]
        try rw [hlast]
        try dsimp only
        by_cases hne : s ≠ ""
        · rw [if_pos hne]
          try rw [hlast]
          try dsimp only
          simp only [exceptState]
          rw [write_to_storage_run_id]
          exact hread
        · rw [if_neg hne]
          try rw [hlast]
          try dsimp only
          simp only [exceptState]
          rw [write_to_storage_run_id]
          exact hread

theorem chat_raw_run_id (a : Assistant) (messages : List Message)
    (um : Option String) (stream : Bool) (rid : String)
    (hrid : a.run_id = some rid) :
    (exceptState (a.chat_raw messages um stream)).run_id = some rid := by
  unfold Assistant.chat_raw
  by_cases htasks : (match a.tasks with
      | some ts => decide (0 < ts.length)
      | none => false) = true
  · rw [if_pos htasks]
    simp [exceptState, hrid]
  · rw [if_neg htasks]
    cases stream with
    | true => simp [exceptState, hrid]
    | false =>
      try dsimp only
      have hbody := chat_raw_body_run_id a messages um false rid hrid
      cases hb : a.chat_raw_body messages um false with
      | error e =>
        rw [hb] at hbody
        simpa [exceptState] using hbody
      | ok t =>
        rw [hb] at hbody
        obtain ⟨ys, a5, log⟩ := t
        simpa [exceptState] using hbody

theorem rename_run_id (a : Assistant) (nm : String) :
    (a.rename nm).1.run_id = a.run_id := by
  unfold Assistant.rename
  try dsimp only
  rw [write_to_storage_run_id]
  exact read_from_storage_run_id a

theorem rename_run_run_id (a : Assistant) (nm : String) :
    (a.rename_run nm).1.run_id = a.run_id := by
  unfold Assistant.rename_run
  try dsimp only
  rw [write_to_storage_run_id]
  exact read_from_storage_run_id a

theorem auto_rename_run_run_id (a : Assistant) (fuel : Nat) (rid : String)
    (hrid : a.run_id = some rid) :
    (autoRenameState a fuel).run_id = some rid := by
  have hread : (a.read_from_storage).2.1.run_id = some rid := by
    rw [read_from_storage_run_id]; exact hrid
  unfold autoRenameState Assistant.auto_rename_run Assistant.generate_name
  try dsimp only
  cases hllm : (a.read_from_storage).2.1.llm with
  | none =>
    try rw [hllm]
    try dsimp only
    exact hrid
  | some l =>
    try rw [hllm]
    try dsimp only
    cases hgn : generate_name_core l
        (generate_name_messages (a.read_from_storage).2.1) fuel with
    | none =>
      try rw [hgn]
      try dsimp only
      exact hrid
    | some nm =>
      try rw [hgn]
      try dsimp only
      rw [write_to_storage_run_id]
      exact hread

/-- C5 witness: the fresh-run scenario at concrete inputs — the first
call on `aC5` creates the run `r5`, seeds the introduction exactly once,
and the second call returns the same id with no storage access; on the
failing storage the creation raises. -/
theorem claim_C5_witness :
    (∃ a1 log1, aC5.create_run = .ok (some "r5", a1, log1) ∧
      a1.memory.chat_history = [{ role := "assistant", content := "hello" }] ∧
      a1.create_run = .ok (some "r5", a1, [])) ∧
    (∃ s, aC5fail.create_run
      = .error ("Failed to create new assistant run in storage", s)) :=
  ⟨claim_C5_theorem.2.1 aC5 stC5 "r5" "hello" rfl rfl rfl (fun _ => rfl) rfl
      rfl rfl (by decide),
   claim_C5_theorem.2.2 aC5fail stC5fail "r5" rfl rfl rfl (fun _ => rfl) rfl⟩

/-! ## Claim C9 -/

/-- C9 (confirmed): construction always yields a `run_id` that is a
string — the field validator substitutes a fresh UUID when the caller
supplies none — and every operation of the assistant preserves a set
`run_id` exactly (in particular none resets it to `None`): loading from a
row, reading and writing storage, seeding the introduction, creating a
run (also on the failure path), the run pipeline and `run()`, raw chat
(call and body, also on the error paths), and the rename helpers. -/
theorem claim_C9_theorem (a : Assistant) (row : AssistantRun)
    (nm intro : String) (messages : List Message) (um : Option String)
    (stream : Bool) (message : Option PyVal) (fuel : Nat) (rid : String)
    (h : a.run_id = some rid) :
    (∀ v fresh, (init_run_id v fresh).isSome = true) ∧
    (a.from_database_row row).run_id = some rid ∧
    (a.read_from_storage).2.1.run_id = some rid ∧
    (a.write_to_storage).1.run_id = some rid ∧
    (a.add_introduction intro).run_id = some rid ∧
    (exceptState a.create_run).run_id = some rid ∧
    (a.assistant_run message stream).state.run_id = some rid ∧
    (a.run_impl message stream).2.run_id = some rid ∧
    (exceptState (a.chat_raw_body messages um stream)).run_id = some rid ∧
    (exceptState (a.chat_raw messages um stream)).run_id = some rid ∧
    (a.rename nm).1.run_id = some rid ∧
    (a.rename_run nm).1.run_id = some rid ∧
    (autoRenameState a fuel).run_id = some rid := by
  refine ⟨fun v fresh => rfl, ?_, ?_, ?_, ?_, ?_, ?_, ?_, ?_, ?_, ?_, ?_, ?_⟩
  · rw [fdb_run_id, h]
    rfl
  · rw [read_from_storage_run_id, h]
  · rw [write_to_storage_run_id, h]
  · rw [add_introduction_run_id, h]
  · exact create_run_run_id a rid h
  · rw [assistant_run_run_id, h]
  · rw [run_impl_run_id, h]
  · exact chat_raw_body_run_id a messages um stream rid h
  · exact chat_raw_run_id a messages um stream rid h
  · rw [rename_run_id, h]
  · rw [rename_run_run_id, h]
  · exact auto_rename_run_run_id a fuel rid h

/-- C9 witness: at the concrete assistant with run id `r9`, construction
yields a set id, and `create_run` and `from_database_row` (against a row
carrying a different id) leave it intact. -/
theorem claim_C9_witness :
    (init_run_id none "fresh-uuid").isSome = true ∧
    (exceptState aC9.create_run).run_id = some "r9" ∧
    (aC9.from_database_row rowC9).run_id = some "r9" :=
  ⟨(claim_C9_theorem aC9 rowC9 "n" "i" [] none true none 0 "r9" rfl).1 none
      "fresh-uuid",
   (claim_C9_theorem aC9 rowC9 "n" "i" [] none true none 0 "r9"
      rfl).2.2.2.2.2.1,
   (claim_C9_theorem aC9 rowC9 "n" "i" [] none true none 0 "r9" rfl).2.1⟩

end Phi
